import Mathlib

/-!
Verification of the family-policy reconciliation and enforcement runtime.

This file gives a shallow embedding of the core of the `family-policy`
repository (a Rust policy-enforcement agent) and proves properties of the
embedded code.  Pure Rust functions become Lean functions; stateful code is
modelled by explicit state passing; fallible Rust code (`anyhow::Result`)
returns `Except String`; machine integers (`i64`, `u32`, `u64`) are modelled
by `Int`/`Nat` (the values involved are far from the overflow boundaries and
no wrapping arithmetic occurs in the embedded code); wall-clock instants
(`DateTime<Utc>`) are modelled by abstract `Nat` stamps together with a
`dateOf : Nat → String` rendering parameter where the code formats a
timestamp as a `YYYY-MM-DD` date.  External library primitives that the
source treats as opaque (the `sha2` SHA-256 digest, the `serde` serializers,
the `argon2` password verifier, the OS surface writers and the HTTP client)
are passed in as function parameters; every piece of control flow around
them is transcribed from the source.
-/

namespace FamilyPolicy

/-! ## Data model: policy documents (src/src/browser.rs, src/src/config.rs) -/

/-- The three supported browsers (src/src/browser.rs, `enum Browser`). -/
inductive Browser
  | chrome
  | firefox
  | edge
deriving DecidableEq, Repr, BEq

/-- Arbitrary JSON values carried by `ExtensionEntry.settings`
(`serde_json::Value`); the embedded code never inspects these, it only
copies them around, so JSON numbers are modelled by `Int`. -/
inductive Json
  | null
  | jbool (b : Bool)
  | jnum (n : Int)
  | jstr (s : String)
  | jarr (xs : List Json)
  | jobj (kvs : List (String × Json))

/-- Browser-specific extension IDs: a single id for all browsers or a
browser→id mapping (src/src/config.rs, `enum BrowserIdMap`).  The Rust
`HashMap<Browser, String>` is modelled by an association list. -/
inductive BrowserIdMap
  | single (id : String)
  | multiple (m : List (Browser × String))

/-- `BrowserIdMap::get_id` (src/src/config.rs). -/
def BrowserIdMap.get_id (self : BrowserIdMap) (browser : Browser) : Option String :=
  match self with
  | .single id => some id
  | .multiple m =>
    match m.find? (fun kv => kv.fst == browser) with
    | some kv => some kv.snd
    | none => none

/-- Extension entry of a policy (src/src/config.rs, `struct ExtensionEntry`). -/
structure ExtensionEntry where
  name : String
  id : BrowserIdMap
  force_installed : Option Bool
  settings : List (String × Json)

/-- A single policy entry (src/src/config.rs, `struct PolicyEntry`). -/
structure PolicyEntry where
  name : String
  browsers : List Browser
  disable_private_mode : Option Bool
  disable_guest_mode : Option Bool
  extensions : List ExtensionEntry

/-- The policy document (src/src/config.rs, `struct Config`). -/
structure Config where
  policies : List PolicyEntry

/-- Legacy per-browser extension record (src/src/config.rs, `struct Extension`). -/
structure Extension where
  id : String
  name : String
  update_url : Option String
  install_url : Option String
  settings : List (String × Json)

/-- Chrome sub-configuration (src/src/config.rs, `struct ChromeConfig`). -/
structure ChromeConfig where
  extensions : List Extension
  disable_incognito : Option Bool
  disable_guest_mode : Option Bool

/-- Firefox sub-configuration (src/src/config.rs, `struct FirefoxConfig`). -/
structure FirefoxConfig where
  extensions : List Extension
  disable_private_browsing : Option Bool

/-- Edge sub-configuration (src/src/config.rs, `struct EdgeConfig`). -/
structure EdgeConfig where
  extensions : List Extension
  disable_inprivate : Option Bool
  disable_guest_mode : Option Bool

/-- `DEFAULT_CHROME_UPDATE_URL` (src/src/config.rs). -/
def DEFAULT_CHROME_UPDATE_URL : String :=
  "https://clients2.google.com/service/update2/crx"

/-- `FIREFOX_ADDONS_BASE` (src/src/config.rs). -/
def FIREFOX_ADDONS_BASE : String :=
  "https://addons.mozilla.org/firefox/downloads/latest"

/-- `generate_firefox_install_url` (src/src/config.rs). -/
def generate_firefox_install_url (id : String) : String :=
  FIREFOX_ADDONS_BASE ++ "/" ++ id ++ "/latest.xpi"

/-! ### Config validation (src/src/config.rs) -/

/-- `Browser::as_str` style check used in validation: Chrome/Edge ids are 32
ASCII lowercase-alphanumeric characters (src/src/config.rs,
`validate_extension_entry`, Chromium branch). -/
def chromiumIdOk (id : String) : Bool :=
  id.length == 32 && id.toList.all (fun c => c.isLower || c.isDigit)

/-- `validate_extension_entry` (src/src/config.rs): the extension must have
an id for every targeted browser, Chromium ids must be 32 chars of
`[a-z0-9]`, Firefox ids must be non-empty. -/
def validate_extension_entry (ext : ExtensionEntry) (browsers : List Browser) :
    Except String Unit :=
  browsers.foldl
    (fun acc browser =>
      acc.bind (fun _ =>
        match ext.id.get_id browser with
        | none => .error "extension does not have an ID for a targeted browser"
        | some id =>
          match browser with
          | .chrome | .edge =>
            if id.length == 32 then
              if id.toList.all (fun c => c.isLower || c.isDigit) then .ok ()
              else .error "invalid Chromium ID: must contain only lowercase letters and digits"
            else .error "invalid Chromium ID length"
          | .firefox =>
            if id.isEmpty then .error "empty Firefox ID" else .ok ()))
    (.ok ())

/-- `validate_policy_entry` (src/src/config.rs): at least one browser, and
every extension entry validates. -/
def validate_policy_entry (policy : PolicyEntry) : Except String Unit :=
  if policy.browsers.isEmpty then
    .error "Policy must specify at least one browser"
  else
    policy.extensions.foldl
      (fun acc ext => acc.bind (fun _ => validate_extension_entry ext policy.browsers))
      (.ok ())

/-- `validate_config` (src/src/config.rs): non-empty policy list and every
entry validates. -/
def validate_config (config : Config) : Except String Unit :=
  if config.policies.isEmpty then
    .error "Configuration must specify at least one policy"
  else
    config.policies.foldl
      (fun acc policy => acc.bind (fun _ => validate_policy_entry policy))
      (.ok ())

/-! ### `to_browser_configs` (src/src/config.rs) -/

/-- Mutable accumulator of the `to_browser_configs` loop: the extension
lists and the five privacy-flag option variables declared at the top of the
Rust function. -/
structure BrowserConfigAccum where
  chrome_extensions : List Extension
  firefox_extensions : List Extension
  edge_extensions : List Extension
  chrome_disable_incognito : Option Bool
  chrome_disable_guest_mode : Option Bool
  firefox_disable_private_browsing : Option Bool
  edge_disable_inprivate : Option Bool
  edge_disable_guest_mode : Option Bool

def BrowserConfigAccum.init : BrowserConfigAccum :=
  ⟨[], [], [], none, none, none, none, none⟩

/-- Privacy-flag pass of one policy entry: the `for browser in
&policy.browsers` loop inside `to_browser_configs`. -/
def applyPrivacyFlag (policy : PolicyEntry) (acc : BrowserConfigAccum)
    (browser : Browser) : BrowserConfigAccum :=
  match browser with
  | .chrome =>
    let acc :=
      match policy.disable_private_mode with
      | some d => { acc with chrome_disable_incognito := some d }
      | none => acc
    match policy.disable_guest_mode with
    | some d => { acc with chrome_disable_guest_mode := some d }
    | none => acc
  | .firefox =>
    -- Firefox has no guest mode: `disable_guest_mode` is ignored.
    match policy.disable_private_mode with
    | some d => { acc with firefox_disable_private_browsing := some d }
    | none => acc
  | .edge =>
    let acc :=
      match policy.disable_private_mode with
      | some d => { acc with edge_disable_inprivate := some d }
      | none => acc
    match policy.disable_guest_mode with
    | some d => { acc with edge_disable_guest_mode := some d }
    | none => acc

/-- Extension pass for one (extension entry, browser) pair inside
`to_browser_configs`: build the legacy `Extension` and push it onto the
matching browser's list. -/
def pushExtension (ext_entry : ExtensionEntry) (acc : BrowserConfigAccum)
    (browser : Browser) : BrowserConfigAccum :=
  match ext_entry.id.get_id browser with
  | none => acc
  | some id =>
    let extension : Extension :=
      { id := id
        name := ext_entry.name
        update_url :=
          match browser with
          | .chrome | .edge => some DEFAULT_CHROME_UPDATE_URL
          | .firefox => none
        install_url :=
          match browser with
          | .firefox => some (generate_firefox_install_url id)
          | _ => none
        settings := ext_entry.settings }
    match browser with
    | .chrome => { acc with chrome_extensions := acc.chrome_extensions ++ [extension] }
    | .firefox => { acc with firefox_extensions := acc.firefox_extensions ++ [extension] }
    | .edge => { acc with edge_extensions := acc.edge_extensions ++ [extension] }

/-- Processing of one policy entry in `to_browser_configs`: privacy flags
for every targeted browser, then every extension entry for every targeted
browser. -/
def processPolicyEntry (acc : BrowserConfigAccum) (policy : PolicyEntry) :
    BrowserConfigAccum :=
  let acc := policy.browsers.foldl (applyPrivacyFlag policy) acc
  policy.extensions.foldl
    (fun acc ext_entry => policy.browsers.foldl (pushExtension ext_entry) acc)
    acc

/-- `to_browser_configs` (src/src/config.rs): translate the declarative
document into the three optional per-browser sub-configurations; a
sub-configuration is `none` iff it has no extensions and no privacy flag. -/
def to_browser_configs (config : Config) :
    Option ChromeConfig × Option FirefoxConfig × Option EdgeConfig :=
  let acc := config.policies.foldl processPolicyEntry BrowserConfigAccum.init
  let chrome_config :=
    if !acc.chrome_extensions.isEmpty || acc.chrome_disable_incognito.isSome
        || acc.chrome_disable_guest_mode.isSome then
      some { extensions := acc.chrome_extensions
             disable_incognito := acc.chrome_disable_incognito
             disable_guest_mode := acc.chrome_disable_guest_mode }
    else none
  let firefox_config :=
    if !acc.firefox_extensions.isEmpty || acc.firefox_disable_private_browsing.isSome then
      some { extensions := acc.firefox_extensions
             disable_private_browsing := acc.firefox_disable_private_browsing }
    else none
  let edge_config :=
    if !acc.edge_extensions.isEmpty || acc.edge_disable_inprivate.isSome
        || acc.edge_disable_guest_mode.isSome then
      some { extensions := acc.edge_extensions
             disable_inprivate := acc.edge_disable_inprivate
             disable_guest_mode := acc.edge_disable_guest_mode }
    else none
  (chrome_config, firefox_config, edge_config)

/-! ## Applied state (src/src/state.rs, src/src/agent/state.rs) -/

/-- Per-browser applied-policy record (src/src/state.rs, `struct BrowserState`). -/
structure BrowserState where
  extensions : List String
  disable_incognito : Option Bool
  disable_inprivate : Option Bool
  disable_private_browsing : Option Bool
  disable_guest_mode : Option Bool
deriving DecidableEq, Repr

/-- `BrowserState::new` (src/src/state.rs). -/
def BrowserState.new : BrowserState :=
  ⟨[], none, none, none, none⟩

/-- `BrowserState::is_empty` (src/src/state.rs). -/
def BrowserState.is_empty (self : BrowserState) : Bool :=
  self.extensions.isEmpty
    && self.disable_incognito.isNone
    && self.disable_inprivate.isNone
    && self.disable_private_browsing.isNone
    && self.disable_guest_mode.isNone

/-- Applied policies for all browsers (src/src/state.rs, `struct AppliedPolicies`). -/
structure AppliedPolicies where
  chrome : Option BrowserState
  firefox : Option BrowserState
  edge : Option BrowserState
deriving DecidableEq, Repr

/-- `AppliedPolicies::default` (src/src/state.rs). -/
def AppliedPolicies.default : AppliedPolicies :=
  ⟨none, none, none⟩

/-- Local-mode persisted state (src/src/state.rs, `struct State`).
Timestamps are abstract `Nat` instants. -/
structure State where
  version : String
  config_hash : String
  last_updated : Nat
  applied_policies : AppliedPolicies
deriving DecidableEq, Repr

/-- `STATE_VERSION` (src/src/state.rs). -/
def STATE_VERSION : String := "1.0"

/-- `compute_config_hash` (src/src/state.rs): serialize the config to JSON
and hash it with SHA-256, hex-encoded with a `sha256:` prefix.  The external
`serde_json` serializer and `sha2` digest are a single opaque parameter
`sha256json : Config → String` producing the hex digest of the JSON
serialization. -/
def compute_config_hash (sha256json : Config → String) (config : Config) : String :=
  "sha256:" ++ sha256json config

/-- `create_state` (src/src/state.rs). -/
def create_state (sha256json : Config → String) (now : Nat) (config : Config)
    (applied_policies : AppliedPolicies) : State :=
  { version := STATE_VERSION
    config_hash := compute_config_hash sha256json config
    last_updated := now
    applied_policies := applied_policies }

/-- Agent-mode persisted state (src/src/agent/state.rs, `struct AgentState`). -/
structure AgentState where
  version : String
  machine_id : String
  config_hash : Option String
  last_updated : Option Nat
  last_checked : Option Nat
  github_etag : Option String
  applied_policies : AppliedPolicies
deriving DecidableEq, Repr

/-- `AgentState::update_checked` (src/src/agent/state.rs): set
`last_checked` to now, touching nothing else. -/
def AgentState.update_checked (self : AgentState) (now : Nat) : AgentState :=
  { self with last_checked := some now }

/-- `AgentState::update_applied` (src/src/agent/state.rs): record a
successful apply. -/
def AgentState.update_applied (self : AgentState) (now : Nat) (config_hash : String)
    (etag : Option String) (applied_policies : AppliedPolicies) : AgentState :=
  { self with
      config_hash := some config_hash
      last_updated := some now
      last_checked := some now
      github_etag := etag
      applied_policies := applied_policies }

/-- `AgentState::update_etag` (src/src/agent/state.rs): new ETag and
`last_checked` only. -/
def AgentState.update_etag (self : AgentState) (now : Nat) (etag : Option String) :
    AgentState :=
  { self with
      github_etag := etag
      last_checked := some now }

/-! ## Remote source client (src/src-tauri/src/agent/poller.rs) -/

/-- Result of fetching the policy (`enum PolicyFetchResult`). -/
inductive PolicyFetchResult
  | notModified
  | updated (content : String) (etag : Option String)
deriving DecidableEq, Repr

/-- An HTTP response as far as `fetch_policy` inspects it: the status code,
and for 200 the body and optional `ETag` header. -/
inductive HttpResponse
  | status200 (body : String) (etag : Option String)
  | status304
  | status401
  | status403
  | status404
  | statusOther (code : Nat)

/-- Error kinds produced by the status dispatch of `fetch_policy`
(`anyhow` errors distinguished here by their message shape). -/
inductive FetchError
  | notFound
  | accessDenied
  | unexpectedStatus (code : Nat)
deriving DecidableEq, Repr

/-- `GitHubPoller::fetch_policy` status-code dispatch
(src/src-tauri/src/agent/poller.rs): 304 → NotModified; 200 → Updated with
the captured ETag; 404 → not-found error; 401/403 → access-denied error;
anything else → unexpected-status error. -/
def fetch_policy : HttpResponse → Except FetchError PolicyFetchResult
  | .status304 => .ok .notModified
  | .status200 body etag => .ok (.updated body etag)
  | .status404 => .error .notFound
  | .status401 => .error .accessDenied
  | .status403 => .error .accessDenied
  | .statusOther code => .error (.unexpectedStatus code)

/-! ## Policy reconciler (src/src/policy/mod.rs, src/src/agent/daemon.rs) -/

/-- Outcome of one run of the per-browser apply sequence, together with the
list of browsers whose surface adaptor was invoked (in invocation order). -/
structure ApplyRun where
  result : Except String AppliedPolicies
  attempted : List Browser
deriving Repr

/-- `apply_policy_config` (src/src/agent/daemon.rs): convert the document to
per-browser configs, then apply Chrome, Firefox, Edge in that order; a `?`
on each apply propagates the first error immediately.  The three platform
surface writers are opaque parameters; `attempted` records which of them
were invoked. -/
def apply_policy_config
    (applyChrome : ChromeConfig → Except String BrowserState)
    (applyFirefox : FirefoxConfig → Except String BrowserState)
    (applyEdge : EdgeConfig → Except String BrowserState)
    (config : Config) : ApplyRun :=
  let (chrome_config, firefox_config, edge_config) := to_browser_configs config
  let applied := AppliedPolicies.default
  -- Chrome
  let stepC : Except String (AppliedPolicies × List Browser) :=
    match chrome_config with
    | none => .ok (applied, [])
    | some chrome =>
      match applyChrome chrome with
      | .error e => .error e
      | .ok state => .ok ({ applied with chrome := some state }, [.chrome])
  match stepC with
  | .error e => ⟨.error e, [.chrome]⟩
  | .ok (applied, tried) =>
    -- Firefox
    let stepF : Except String (AppliedPolicies × List Browser) :=
      match firefox_config with
      | none => .ok (applied, tried)
      | some firefox =>
        match applyFirefox firefox with
        | .error e => .error e
        | .ok state => .ok ({ applied with firefox := some state }, tried ++ [.firefox])
    match stepF with
    | .error e => ⟨.error e, tried ++ [.firefox]⟩
    | .ok (applied, tried) =>
      -- Edge
      match edge_config with
      | none => ⟨.ok applied, tried⟩
      | some edge =>
        match applyEdge edge with
        | .error e => ⟨.error e, tried ++ [.edge]⟩
        | .ok state => ⟨.ok { applied with edge := some state }, tried ++ [.edge]⟩

/-- `apply_policies` (src/src/policy/mod.rs): as `apply_policy_config`, but
a browser's state is only recorded when it is non-empty.  The same `?`
short-circuiting applies. -/
def apply_policies
    (applyChrome : ChromeConfig → Except String BrowserState)
    (applyFirefox : FirefoxConfig → Except String BrowserState)
    (applyEdge : EdgeConfig → Except String BrowserState)
    (config : Config) : ApplyRun :=
  let (chrome_config, firefox_config, edge_config) := to_browser_configs config
  let applied := AppliedPolicies.default
  let stepC : Except String (AppliedPolicies × List Browser) :=
    match chrome_config with
    | none => .ok (applied, [])
    | some chrome =>
      match applyChrome chrome with
      | .error e => .error e
      | .ok state =>
        .ok (if !state.is_empty then { applied with chrome := some state } else applied,
          [.chrome])
  match stepC with
  | .error e => ⟨.error e, [.chrome]⟩
  | .ok (applied, tried) =>
    let stepF : Except String (AppliedPolicies × List Browser) :=
      match firefox_config with
      | none => .ok (applied, tried)
      | some firefox =>
        match applyFirefox firefox with
        | .error e => .error e
        | .ok state =>
          .ok (if !state.is_empty then { applied with firefox := some state } else applied,
            tried ++ [.firefox])
    match stepF with
    | .error e => ⟨.error e, tried ++ [.firefox]⟩
    | .ok (applied, tried) =>
      match edge_config with
      | none => ⟨.ok applied, tried⟩
      | some edge =>
        match applyEdge edge with
        | .error e => ⟨.error e, tried ++ [.edge]⟩
        | .ok state =>
          ⟨.ok (if !state.is_empty then { applied with edge := some state } else applied),
            tried ++ [.edge]⟩

/-! ## Daemon loop, one iteration (src/src/agent/daemon.rs) -/

/-- `compute_yaml_hash` (src/src/agent/daemon.rs): SHA-256 of the raw
content, hex-encoded, prefixed `sha256:`.  The digest itself
(`sha256hex : String → String`) is the opaque `sha2` primitive. -/
def compute_yaml_hash (sha256hex : String → String) (content : String) : String :=
  "sha256:" ++ sha256hex content

/-- `Config::from_yaml_str` (src/src/agent/daemon.rs): parse the YAML
(external `serde_yaml`, an opaque parameter) and then validate. -/
def from_yaml_str (parseYaml : String → Except String Config) (content : String) :
    Except String Config :=
  match parseYaml content with
  | .error e => .error e
  | .ok config =>
    match validate_config config with
    | .error e => .error e
    | .ok _ => .ok config

/-- Observable outcome of one `check_and_apply_policy` iteration:
`result` is the function's return value (`Ok applied` or the propagated
error); `persisted` is the on-disk agent state after the iteration (the
prior state when no save executed); `parsed` records whether the
YAML parse/validate step ran; `attempted` records which browser surface
writers were invoked. -/
structure DaemonStep where
  result : Except String Bool
  persisted : AgentState
  parsed : Bool
  attempted : List Browser
deriving Repr

/-- `check_and_apply_policy` (src/src/agent/daemon.rs): one daemon
iteration after the state load.  `fetched` is the outcome of
`poller.fetch_policy(state.github_etag)` (a fetch error propagates before
anything is persisted).  On `NotModified` only `last_checked` is persisted;
on `Updated` the content hash is compared with the persisted `config_hash`
and, when equal, only the ETag (and `last_checked`) is persisted with no
parse and no apply; otherwise the document is parsed, validated, applied
and the full new state persisted. -/
def check_and_apply_policy
    (sha256hex : String → String)
    (parseYaml : String → Except String Config)
    (applyChrome : ChromeConfig → Except String BrowserState)
    (applyFirefox : FirefoxConfig → Except String BrowserState)
    (applyEdge : EdgeConfig → Except String BrowserState)
    (now : Nat)
    (state : AgentState)
    (fetched : Except String PolicyFetchResult) : DaemonStep :=
  match fetched with
  | .error e => ⟨.error e, state, false, []⟩
  | .ok .notModified =>
    ⟨.ok false, state.update_checked now, false, []⟩
  | .ok (.updated content etag) =>
    let new_hash := compute_yaml_hash sha256hex content
    if state.config_hash = some new_hash then
      ⟨.ok false, state.update_etag now etag, false, []⟩
    else
      match from_yaml_str parseYaml content with
      | .error e => ⟨.error e, state, true, []⟩
      | .ok policy_config =>
        let run := apply_policy_config applyChrome applyFirefox applyEdge policy_config
        match run.result with
        | .error e => ⟨.error e, state, true, run.attempted⟩
        | .ok applied_policies =>
          ⟨.ok true, state.update_applied now new_hash etag applied_policies, true,
            run.attempted⟩

/-! ## Retry wrapper (src/src/agent/daemon.rs, `check_and_apply_with_retry`) -/

/-- One run of `check_and_apply_with_retry` starting with `retries = idx`
failures already recorded and `remaining = max_retries - idx` retry budget
left.  `attempt i` is the outcome of the `(i+1)`-th call to
`check_and_apply_policy`; the returned list holds the backoff waits (in
seconds) actually slept: after the failure that raises `retries` to `i`,
the wait is `retry_interval * 2 ^ (i - 1)`. -/
def retryFrom {ε : Type} (attempt : Nat → Except ε Bool) (retry_interval : Nat)
    (idx : Nat) : Nat → Except ε Bool × List Nat
  | 0 => (attempt idx, [])
  | remaining + 1 =>
    match attempt idx with
    | .ok applied => (.ok applied, [])
    | .error _ =>
      let backoff := retry_interval * 2 ^ idx
      let rest := retryFrom attempt retry_interval (idx + 1) remaining
      (rest.fst, backoff :: rest.snd)

/-- `check_and_apply_with_retry` (src/src/agent/daemon.rs): call
`check_and_apply_policy`; on any error with `retries < max_retries`, sleep
`retry_interval * 2 ^ (retries - 1)` (after incrementing `retries`) and try
again; past the budget return the error.  The error type is opaque
(`anyhow::Error`): no error kind is inspected. -/
def check_and_apply_with_retry {ε : Type} (retry_interval : Nat) (max_retries : Nat)
    (attempt : Nat → Except ε Bool) : Except ε Bool × List Nat :=
  retryFrom attempt retry_interval 0 max_retries

/-! ## Local apply command (src/src/commands/local.rs, `install_policies`) -/

/-- Observable outcome of one `install_policies` run: the returned result,
whether the "No changes detected" short-circuit was reported, which browser
surfaces were invoked, and the state written to disk (`none` when no state
write happened). -/
structure InstallStep where
  result : Except String Unit
  reportedNoChanges : Bool
  surfacesAttempted : List Browser
  savedState : Option State
deriving Repr

/-- `install_policies` (src/src/commands/local.rs): compute the config
hash; when it equals the persisted hash and this is not a dry run, report
"No changes detected" and return without touching any surface or the state
file; in dry-run mode print only; otherwise apply all policies and persist
the state with the new hash. -/
def install_policies
    (sha256json : Config → String)
    (applyChrome : ChromeConfig → Except String BrowserState)
    (applyFirefox : FirefoxConfig → Except String BrowserState)
    (applyEdge : EdgeConfig → Except String BrowserState)
    (now : Nat)
    (current_state : Option State)
    (config : Config)
    (dry_run : Bool) : InstallStep :=
  let config_hash := compute_config_hash sha256json config
  let needs_update :=
    match current_state with
    | some state => state.config_hash != config_hash
    | none => true
  if !needs_update && !dry_run then
    ⟨.ok (), true, [], none⟩
  else if dry_run then
    ⟨.ok (), false, [], none⟩
  else
    let run := apply_policies applyChrome applyFirefox applyEdge config
    match run.result with
    | .error e => ⟨.error e, false, run.attempted, none⟩
    | .ok applied_policies =>
      let new_state := create_state sha256json now config applied_policies
      ⟨.ok (), false, run.attempted, some new_state⟩

/-! ## Time-limits data model (src/src/time_limits/config.rs, state.rs) -/

/-- `struct TimeLimit` (src/src/time_limits/config.rs). -/
structure TimeLimit where
  hours : Nat
  minutes : Nat
deriving DecidableEq, Repr

/-- `TimeLimit::to_seconds` (src/src/time_limits/config.rs). -/
def TimeLimit.to_seconds (self : TimeLimit) : Int :=
  (self.hours : Int) * 3600 + (self.minutes : Int) * 60

/-- `struct CustomDayLimit` (src/src/time_limits/config.rs). -/
structure CustomDayLimit where
  days : List String
  limit : TimeLimit
deriving DecidableEq, Repr

/-- `struct TimeLimitSchedule` (src/src/time_limits/config.rs). -/
structure TimeLimitSchedule where
  weekday : TimeLimit
  weekend : TimeLimit
  custom : List CustomDayLimit
deriving DecidableEq, Repr

/-- `struct ChildProfile` (src/src/time_limits/config.rs).  `warnings` are
threshold minutes (`u32`), `grace_period` is seconds (`u64`). -/
structure ChildProfile where
  id : String
  name : String
  os_users : List String
  limits : TimeLimitSchedule
  warnings : List Nat
  grace_period : Nat
deriving DecidableEq, Repr

/-- `struct AdminConfig` (src/src/time_limits/config.rs). -/
structure AdminConfig where
  password_hash : String
  admin_accounts : List String
deriving DecidableEq, Repr

/-- `struct SharedLoginConfig` (src/src/time_limits/config.rs). -/
structure SharedLoginConfig where
  enabled : Bool
  shared_accounts : List String
  require_selection : Bool
  allow_switching : Bool
  auto_select_if_unique : Bool
deriving DecidableEq, Repr

/-- `enum LockAction` (src/src/time_limits/config.rs). -/
inductive LockAction
  | lock
  | logout
  | shutdown
deriving DecidableEq, Repr

/-- `struct EnforcementConfig` (src/src/time_limits/config.rs). -/
structure EnforcementConfig where
  action : LockAction
  prevent_time_manipulation : Bool
  require_admin_to_quit : Bool
  self_protection : Bool
deriving DecidableEq, Repr

/-- `struct TimeLimitsConfig` (src/src/time_limits/config.rs). -/
structure TimeLimitsConfig where
  admin : AdminConfig
  children : List ChildProfile
  shared_login : SharedLoginConfig
  enforcement : EnforcementConfig
deriving DecidableEq, Repr

/-- `struct Session` (src/src/time_limits/state.rs); instants are `Nat`. -/
structure Session where
  start : Nat
  stop : Nat
  duration_seconds : Int
deriving DecidableEq, Repr

/-- `struct DayUsage` (src/src/time_limits/state.rs). -/
structure DayUsage where
  date : String
  used_seconds : Int
  remaining_seconds : Int
  sessions : List Session
  warnings_shown : List String
  locked_at : Option Nat
deriving DecidableEq, Repr

/-- `DayUsage::should_show_warning` (src/src/time_limits/state.rs): true
iff the `"<n>min"` key has not been recorded yet. -/
def DayUsage.should_show_warning (self : DayUsage) (threshold_minutes : Nat) : Bool :=
  let threshold_key := toString threshold_minutes ++ "min"
  !(self.warnings_shown.contains threshold_key)

/-- `DayUsage::mark_warning_shown` (src/src/time_limits/state.rs). -/
def DayUsage.mark_warning_shown (self : DayUsage) (threshold_minutes : Nat) : DayUsage :=
  let threshold_key := toString threshold_minutes ++ "min"
  if self.warnings_shown.contains threshold_key then self
  else { self with warnings_shown := self.warnings_shown ++ [threshold_key] }

/-- `DayUsage::is_locked` (src/src/time_limits/state.rs). -/
def DayUsage.is_locked (self : DayUsage) : Bool :=
  self.locked_at.isSome

/-- `DayUsage::lock` (src/src/time_limits/state.rs). -/
def DayUsage.lock (self : DayUsage) (now : Nat) : DayUsage :=
  if self.locked_at.isNone then { self with locked_at := some now } else self

/-- `DayUsage::unlock` (src/src/time_limits/state.rs). -/
def DayUsage.unlock (self : DayUsage) : DayUsage :=
  { self with locked_at := none }

/-- A fresh `DayUsage` for a given date, as constructed by
`reset_for_new_day` and `get_or_create_child`. -/
def DayUsage.fresh (date : String) : DayUsage :=
  { date := date
    used_seconds := 0
    remaining_seconds := 0
    sessions := []
    warnings_shown := []
    locked_at := none }

/-- `struct ChildState` (src/src/time_limits/state.rs). -/
structure ChildState where
  id : String
  name : String
  today : DayUsage
deriving DecidableEq, Repr

/-- `struct ActiveSession` (src/src/time_limits/state.rs). -/
structure ActiveSession where
  child_id : String
  session_start : Nat
  last_activity : Nat
  paused : Bool
deriving DecidableEq, Repr

/-- `ActiveSession::new` (src/src/time_limits/state.rs). -/
def ActiveSession.new (child_id : String) (now : Nat) : ActiveSession :=
  { child_id := child_id
    session_start := now
    last_activity := now
    paused := false }

/-- `enum OverrideType` (src/src/time_limits/state.rs). -/
inductive OverrideType
  | extension
  | reset
  | unlock
  | pause
deriving DecidableEq, Repr

/-- `struct AdminOverride` (src/src/time_limits/state.rs); `granted_at` is
an abstract instant rendered to a date via `dateOf` where the code formats
it. -/
structure AdminOverride where
  child_id : String
  override_type : OverrideType
  additional_seconds : Option Int
  granted_at : Nat
  granted_by : String
  reason : Option String
deriving DecidableEq, Repr

/-- `struct TimeLimitsState` (src/src/time_limits/state.rs). -/
structure TimeLimitsState where
  version : String
  state_date : String
  children : List ChildState
  active_session : Option ActiveSession
  admin_overrides : List AdminOverride
deriving DecidableEq, Repr

/-- `TimeLimitsState::needs_daily_reset` (src/src/time_limits/state.rs):
the state's date differs from today's wall-clock date. -/
def TimeLimitsState.needs_daily_reset (self : TimeLimitsState) (today : String) : Bool :=
  self.state_date != today

/-- `TimeLimitsState::reset_for_new_day` (src/src/time_limits/state.rs):
set the state date to today, reset every child's `DayUsage`, clear the
active session, clear the admin overrides. -/
def TimeLimitsState.reset_for_new_day (self : TimeLimitsState) (today : String) :
    TimeLimitsState :=
  { self with
      state_date := today
      children := self.children.map (fun child => { child with today := DayUsage.fresh today })
      active_session := none
      admin_overrides := [] }

/-- Update the first child with the given id (Rust's
`get_child_mut(id)` finds the first matching child and mutates it in
place). -/
def updateFirstChild (children : List ChildState) (id : String)
    (f : ChildState → ChildState) : List ChildState :=
  match children with
  | [] => []
  | c :: rest =>
    if c.id == id then f c :: rest else c :: updateFirstChild rest id f

/-- `TimeLimitsState::get_child` (src/src/time_limits/state.rs). -/
def TimeLimitsState.get_child (self : TimeLimitsState) (id : String) : Option ChildState :=
  self.children.find? (fun c => c.id == id)

/-- `TimeLimitsState::get_or_create_child` (src/src/time_limits/state.rs):
return the first child with the given id, pushing a fresh one (dated today)
when absent.  The Rust function returns a mutable reference; here the
possibly-extended state is returned together with the child it points at. -/
def TimeLimitsState.get_or_create_child (self : TimeLimitsState) (today : String)
    (id : String) (name : String) : TimeLimitsState × ChildState :=
  match self.children.find? (fun c => c.id == id) with
  | some child => (self, child)
  | none =>
    let child : ChildState := { id := id, name := name, today := DayUsage.fresh today }
    ({ self with children := self.children ++ [child] }, child)

/-- Write back a child updated through the mutable reference obtained from
`get_or_create_child`/`get_child_mut` (the first child with that id). -/
def TimeLimitsState.set_child (self : TimeLimitsState) (id : String)
    (child : ChildState) : TimeLimitsState :=
  { self with children := updateFirstChild self.children id (fun _ => child) }

/-- `load_state` post-parse processing (src/src/time_limits/state.rs,
lines 276-295): reject a version mismatch (treat as absent), otherwise
perform the daily rollover when the wall date moved on, persisting the
reset state.  `parsed` is the successfully parsed file content. -/
def load_state_processed (today : String) (parsed : TimeLimitsState) :
    Option TimeLimitsState :=
  if parsed.version != STATE_VERSION then none
  else if parsed.needs_daily_reset today then some (parsed.reset_for_new_day today)
  else some parsed

/-! ## Schedule calculator (src/src/time_limits/scheduler.rs) -/

/-- `chrono::Weekday` as consumed by the scheduler. -/
inductive Weekday
  | mon | tue | wed | thu | fri | sat | sun
deriving DecidableEq, Repr

/-- `ScheduleCalculator::weekday_to_string` (src/src/time_limits/scheduler.rs). -/
def weekday_to_string : Weekday → String
  | .mon => "monday"
  | .tue => "tuesday"
  | .wed => "wednesday"
  | .thu => "thursday"
  | .fri => "friday"
  | .sat => "saturday"
  | .sun => "sunday"

/-- `ScheduleCalculator::is_weekend` (src/src/time_limits/scheduler.rs). -/
def is_weekend : Weekday → Bool
  | .sat => true
  | .sun => true
  | _ => false

/-- `ScheduleCalculator::get_limit_for_day` (src/src/time_limits/scheduler.rs):
the first custom rule whose day list contains the day name
(case-insensitively) wins; otherwise the weekend limit on Sat/Sun, else the
weekday limit. -/
def get_limit_for_day (child : ChildProfile) (day_name : String) (weekday : Weekday) :
    TimeLimit :=
  match child.limits.custom.find?
      (fun custom => custom.days.any (fun d => d.toLower == day_name.toLower)) with
  | some custom => custom.limit
  | none => if is_weekend weekday then child.limits.weekend else child.limits.weekday

/-- `ScheduleCalculator::get_limit_for_today` (src/src/time_limits/scheduler.rs);
today's weekday is the `weekday` parameter (`Utc::now().weekday()`). -/
def get_limit_for_today (child : ChildProfile) (weekday : Weekday) : TimeLimit :=
  get_limit_for_day child (weekday_to_string weekday) weekday

/-- `ScheduleCalculator::calculate_remaining_time`
(src/src/time_limits/scheduler.rs): `max(0, limit + additional - used)`. -/
def calculate_remaining_time (child : ChildProfile) (weekday : Weekday)
    (used_seconds : Int) (additional_seconds : Option Int) : Int :=
  let limit := get_limit_for_today child weekday
  let limit_seconds := limit.to_seconds
  let total_limit := limit_seconds + additional_seconds.getD 0
  max (total_limit - used_seconds) 0

/-- `ScheduleCalculator::get_today_overrides`
(src/src/time_limits/scheduler.rs): sum of `additional_seconds` over the
overrides granted today for this child (`None` entries contribute
nothing). -/
def get_today_overrides (dateOf : Nat → String) (today : String) (child_id : String)
    (overrides : List AdminOverride) : Int :=
  ((overrides.filter
      (fun o => o.child_id == child_id && dateOf o.granted_at == today)).filterMap
    (fun o => o.additional_seconds)).sum

/-! ## Admin gate (src/src/time_limits/auth.rs) -/

/-- `AdminAuth::is_admin_account` (src/src/time_limits/auth.rs). -/
def is_admin_account (username : String) (admin_accounts : List String) : Bool :=
  admin_accounts.any (fun admin => admin == username)

/-! ## Time tracker (src/src/time_limits/tracker.rs)

The tracker mutates a shared `TimeLimitsState` under a mutex; each
operation is embedded as a function from the pre-state to the post-state,
paired with its `Result`.  Mutations made before an error are kept in the
returned state exactly as the Rust leaves them in memory.  External
machinery appears as parameters: `verify` is the opaque Argon2
`AdminAuth::verify_password`; `current_user` is the OS username read from
the environment; `dateOf` renders an instant to its `YYYY-MM-DD` date;
`sendWarning`/`sendFinalWarning`/`enforceLock` are the `LockEnforcer`
operations, whose errors the tracker propagates with `?`. -/

/-- `TimeTracker::grant_extension` (src/src/time_limits/tracker.rs):
verify the password against the stored hash (bail on mismatch before any
state change), append an Extension override of `minutes * 60` seconds, and
unlock the child when it exists in the state (silently skipped
otherwise). -/
def grant_extension
    (verify : String → String → Except String Bool)
    (current_user : String)
    (now : Nat)
    (config : TimeLimitsConfig)
    (state : TimeLimitsState)
    (child_id : String)
    (additional_minutes : Nat)
    (admin_password : String)
    (reason : Option String) : Except String Unit × TimeLimitsState :=
  match verify admin_password config.admin.password_hash with
  | .error e => (.error e, state)
  | .ok false => (.error "Invalid admin password", state)
  | .ok true =>
    let admin_user := current_user
    let override_rec : AdminOverride :=
      { child_id := child_id
        override_type := .extension
        additional_seconds := some ((additional_minutes : Int) * 60)
        granted_at := now
        granted_by := admin_user
        reason := reason }
    let state := { state with admin_overrides := state.admin_overrides ++ [override_rec] }
    let state :=
      { state with
          children := updateFirstChild state.children child_id
            (fun child => { child with today := child.today.unlock }) }
    (.ok (), state)

/-- `TimeTracker::reset_time` (src/src/time_limits/tracker.rs): verify the
password; when the child exists, zero `used_seconds`, clear sessions and
warnings, unlock, and append a Reset override; otherwise bail with
"Child not found" leaving the state untouched. -/
def reset_time
    (verify : String → String → Except String Bool)
    (current_user : String)
    (now : Nat)
    (config : TimeLimitsConfig)
    (state : TimeLimitsState)
    (child_id : String)
    (admin_password : String) : Except String Unit × TimeLimitsState :=
  match verify admin_password config.admin.password_hash with
  | .error e => (.error e, state)
  | .ok false => (.error "Invalid admin password", state)
  | .ok true =>
    if state.children.any (fun c => c.id == child_id) then
      let state :=
        { state with
            children := updateFirstChild state.children child_id
              (fun child =>
                { child with today :=
                    { child.today with
                        used_seconds := 0
                        sessions := []
                        warnings_shown := []
                        locked_at := none } }) }
      let override_rec : AdminOverride :=
        { child_id := child_id
          override_type := .reset
          additional_seconds := none
          granted_at := now
          granted_by := current_user
          reason := some "Time reset" }
      (.ok (), { state with admin_overrides := state.admin_overrides ++ [override_rec] })
    else
      (.error "Child not found", state)

/-- `TimeTracker::auto_detect_child` (src/src/time_limits/tracker.rs): in
shared-login mode wait for explicit selection; admins are not tracked; a
child whose `os_users` contains the current user opens a session; unknown
users produce a warning and no tracking. -/
def auto_detect_child (config : TimeLimitsConfig) (current_user : String)
    (today : String) (now : Nat) (state : TimeLimitsState) : TimeLimitsState :=
  if config.shared_login.enabled then state
  else if is_admin_account current_user config.admin.admin_accounts then state
  else
    match config.children.find? (fun child => child.os_users.contains current_user) with
    | some child =>
      let state := { state with active_session := some (ActiveSession.new child.id now) }
      (state.get_or_create_child today child.id child.name).fst
    | none => state

/-- What one tracker tick emitted. -/
structure TickOutput where
  warningsSent : List Nat
  finalWarningSent : Bool
  lockEnforced : Bool
deriving DecidableEq, Repr

def TickOutput.none : TickOutput := ⟨[], false, false⟩

/-- Outcome of one `track_iteration`: the returned result and the in-memory
state after the call. -/
structure TickStep where
  result : Except String Unit
  state : TimeLimitsState
  output : TickOutput

/-- The `for &warning_minutes in &child_config.warnings` loop of
`track_iteration`: send a warning (and mark it shown) for every threshold
`w` with `remaining ≤ w*60` and `remaining > w*60 - 10` that has not been
shown today; a notification error propagates immediately. -/
def warningsLoop (sendWarning : ChildState → Nat → Except String Unit)
    (warnings : List Nat) (remaining_seconds : Int) (child : ChildState)
    (sent : List Nat) : Except String Unit × ChildState × List Nat :=
  match warnings with
  | [] => (.ok (), child, sent)
  | warning_minutes :: rest =>
    let warning_seconds : Int := (warning_minutes : Int) * 60
    if remaining_seconds ≤ warning_seconds ∧ warning_seconds - 10 < remaining_seconds then
      if child.today.should_show_warning warning_minutes then
        match sendWarning child warning_minutes with
        | .error e => (.error e, child, sent)
        | .ok _ =>
          let child := { child with today := child.today.mark_warning_shown warning_minutes }
          warningsLoop sendWarning rest remaining_seconds child (sent ++ [warning_minutes])
      else warningsLoop sendWarning rest remaining_seconds child sent
    else warningsLoop sendWarning rest remaining_seconds child sent

/-- `TimeTracker::track_iteration` (src/src/time_limits/tracker.rs): one
10-second tick.  1. daily rollover if the date moved; 2. with no active
session, auto-detect and return; 3. a paused session returns; 4. the active
child must exist in the config; 5. a locked child returns; 6. add 10
seconds of use; 7. recompute `remaining_seconds`; 8. send threshold
warnings; 9. on exhaustion send the final warning, wait out the grace
period, lock and enforce; 10. persist. -/
def track_iteration
    (config : TimeLimitsConfig)
    (dateOf : Nat → String)
    (now : Nat)
    (weekday : Weekday)
    (current_user : String)
    (sendWarning : ChildState → Nat → Except String Unit)
    (sendFinalWarning : ChildState → Nat → Except String Unit)
    (enforceLock : ChildState → Except String Unit)
    (state0 : TimeLimitsState) : TickStep :=
  let today := dateOf now
  -- 1. daily rollover (persisted immediately)
  let state :=
    if state0.needs_daily_reset today then state0.reset_for_new_day today else state0
  match state.active_session with
  | none =>
    -- 2. no active session: attempt auto-detection and return
    ⟨.ok (), auto_detect_child config current_user today now state, TickOutput.none⟩
  | some active_session =>
    -- 3. paused session
    if active_session.paused then ⟨.ok (), state, TickOutput.none⟩
    else
      let child_id := active_session.child_id
      -- 4. the active child's profile
      match config.children.find? (fun c => c.id == child_id) with
      | none => ⟨.error "Active child not found in config", state, TickOutput.none⟩
      | some child_config =>
        let additional_seconds :=
          get_today_overrides dateOf today child_id state.admin_overrides
        let (state, child) := state.get_or_create_child today child_id child_config.name
        -- 5. already locked today
        if child.today.is_locked then ⟨.ok (), state, TickOutput.none⟩
        else
          -- 6. account 10 seconds
          let child :=
            { child with today :=
                { child.today with used_seconds := child.today.used_seconds + 10 } }
          -- 7. recompute remaining time
          let remaining_seconds :=
            calculate_remaining_time child_config weekday child.today.used_seconds
              (some additional_seconds)
          let child :=
            { child with today :=
                { child.today with remaining_seconds := remaining_seconds } }
          -- 8. threshold warnings
          match warningsLoop sendWarning child_config.warnings remaining_seconds child [] with
          | (.error e, child, sent) =>
            ⟨.error e, state.set_child child_id child, ⟨sent, false, false⟩⟩
          | (.ok _, child, sent) =>
            -- 9. exhaustion: final warning, grace period, lock, enforce
            if remaining_seconds ≤ 0 then
              match sendFinalWarning child child_config.grace_period with
              | .error e => ⟨.error e, state.set_child child_id child, ⟨sent, false, false⟩⟩
              | .ok _ =>
                let child := { child with today := child.today.lock now }
                match enforceLock child with
                | .error e =>
                  ⟨.error e, state.set_child child_id child, ⟨sent, true, false⟩⟩
                | .ok _ =>
                  -- 10. persist
                  ⟨.ok (), state.set_child child_id child, ⟨sent, true, true⟩⟩
            else
              ⟨.ok (), state.set_child child_id child, ⟨sent, false, false⟩⟩

/-! ## Concrete fixtures used by witnesses and counterexamples -/

/-- A constant stand-in for the SHA-256 hex digest. -/
def shaConstD : String → String := fun _ => "d"

/-- A constant stand-in for the JSON-serialize-then-SHA-256 digest of a
config. -/
def shaConstJson : Config → String := fun _ => "j"

/-- A YAML parser stand-in that always fails (used on paths proved to never
parse). -/
def parseAlwaysFails : String → Except String Config := fun _ => .error "no parse"

/-- Chrome surface writer that always fails. -/
def applyChromeFails : ChromeConfig → Except String BrowserState :=
  fun _ => .error "chrome boom"

/-- Firefox surface writer that always succeeds with an empty state. -/
def applyFirefoxOk : FirefoxConfig → Except String BrowserState :=
  fun _ => .ok BrowserState.new

/-- Edge surface writer that always succeeds with an empty state. -/
def applyEdgeOk : EdgeConfig → Except String BrowserState :=
  fun _ => .ok BrowserState.new

/-- Chrome surface writer that always succeeds with an empty state. -/
def applyChromeOk : ChromeConfig → Except String BrowserState :=
  fun _ => .ok BrowserState.new

/-- A concrete agent state whose persisted hash matches `shaConstD` of any
content. -/
def stateHashD : AgentState :=
  { version := "1.0"
    machine_id := "m"
    config_hash := some "sha256:d"
    last_updated := none
    last_checked := none
    github_etag := none
    applied_policies := AppliedPolicies.default }

/-- A policy document with two per-browser sub-configurations (Chrome and
Firefox, via `disable_private_mode` on both). -/
def cfgChromeFirefox : Config :=
  { policies :=
      [{ name := "p"
         browsers := [.chrome, .firefox]
         disable_private_mode := some true
         disable_guest_mode := none
         extensions := [] }] }

/-! ## C4: a 304 iteration only advances `last_checked` -/

/-- **C4.** For every daemon iteration in which the fetch returns
NotModified (304), the persisted state changes only in its `last_checked`
field: `config_hash`, `github_etag` and `applied_policies` are left exactly
as they were before the iteration (and no parse or surface apply runs). -/
theorem c4_not_modified_touches_only_last_checked
    (sha256hex : String → String) (parseYaml : String → Except String Config)
    (applyChrome : ChromeConfig → Except String BrowserState)
    (applyFirefox : FirefoxConfig → Except String BrowserState)
    (applyEdge : EdgeConfig → Except String BrowserState)
    (now : Nat) (state : AgentState) :
    check_and_apply_policy sha256hex parseYaml applyChrome applyFirefox applyEdge now state
        (.ok .notModified) =
      ⟨.ok false, { state with last_checked := some now }, false, []⟩ ∧
    ({ state with last_checked := some now } : AgentState).config_hash = state.config_hash ∧
    ({ state with last_checked := some now } : AgentState).github_etag = state.github_etag ∧
    ({ state with last_checked := some now } : AgentState).applied_policies
      = state.applied_policies :=
  ⟨rfl, rfl, rfl, rfl⟩

/-! ## C3: content re-downloaded but hash unchanged -/

/-- **C3.** For every daemon iteration in which the fetch returns
`Updated (content, etag)`, if the SHA-256 hash of the content (prefixed
`"sha256:"`) equals the persisted `config_hash`, the iteration performs no
parse, no validation and no surface apply, and persists the new ETag
together with `last_checked`, leaving `config_hash` and `applied_policies`
unchanged. -/
theorem c3_hash_match_is_noop
    (sha256hex : String → String) (parseYaml : String → Except String Config)
    (applyChrome : ChromeConfig → Except String BrowserState)
    (applyFirefox : FirefoxConfig → Except String BrowserState)
    (applyEdge : EdgeConfig → Except String BrowserState)
    (now : Nat) (state : AgentState) (content : String) (etag : Option String)
    (h : state.config_hash = some (compute_yaml_hash sha256hex content)) :
    check_and_apply_policy sha256hex parseYaml applyChrome applyFirefox applyEdge now state
        (.ok (.updated content etag)) =
      ⟨.ok false, { state with github_etag := etag, last_checked := some now }, false, []⟩ ∧
    ({ state with github_etag := etag, last_checked := some now } : AgentState).config_hash
      = state.config_hash ∧
    ({ state with github_etag := etag, last_checked := some now } : AgentState).applied_policies
      = state.applied_policies := by
  refine ⟨?_, rfl, rfl⟩
  simp only [check_and_apply_policy, h, if_pos]
  rw [← h]
  rfl

/-- Witness for C3 at a concrete input. -/
theorem c3_hash_match_is_noop_witness :
    stateHashD.config_hash = some (compute_yaml_hash shaConstD "body") ∧
    (check_and_apply_policy shaConstD parseAlwaysFails applyChromeFails applyFirefoxOk
        applyEdgeOk 7 stateHashD (.ok (.updated "body" (some "E2"))) =
      ⟨.ok false, { stateHashD with github_etag := some "E2", last_checked := some 7 },
        false, []⟩ ∧
    ({ stateHashD with github_etag := some "E2", last_checked := some 7 } : AgentState).config_hash
      = stateHashD.config_hash ∧
    ({ stateHashD with github_etag := some "E2", last_checked := some 7 }
        : AgentState).applied_policies = stateHashD.applied_policies) :=
  ⟨rfl, c3_hash_match_is_noop shaConstD parseAlwaysFails applyChromeFails applyFirefoxOk
    applyEdgeOk 7 stateHashD "body" (some "E2") rfl⟩

/-! ## C1: behaviour of the apply sequence on a per-browser failure -/

/-- **C1 counterexample.** A document whose sub-configurations cover Chrome
and Firefox, with a failing Chrome surface writer: the apply sequence stops
at Chrome — Firefox is never attempted and the single Chrome error is
returned rather than an aggregate — refuting the claim that the remaining
browsers are still attempted with errors aggregated. -/
theorem c1_counterexample :
    (to_browser_configs cfgChromeFirefox).1.isSome = true ∧
    (to_browser_configs cfgChromeFirefox).2.1.isSome = true ∧
    (apply_policy_config applyChromeFails applyFirefoxOk applyEdgeOk cfgChromeFirefox).attempted
      = [Browser.chrome] ∧
    Browser.firefox ∉
      (apply_policy_config applyChromeFails applyFirefoxOk applyEdgeOk
        cfgChromeFirefox).attempted ∧
    (apply_policy_config applyChromeFails applyFirefoxOk applyEdgeOk cfgChromeFirefox).result
      = .error "chrome boom" := by
  refine ⟨rfl, rfl, rfl, ?_, rfl⟩
  have h : (apply_policy_config applyChromeFails applyFirefoxOk applyEdgeOk
      cfgChromeFirefox).attempted = [Browser.chrome] := rfl
  rw [h]
  simp

/-- **C1 (amended).** If applying the surface operations for one browser
fails, the apply sequence short-circuits at that browser: the remaining
browsers are NOT attempted and the single error is returned without
aggregation; the persisted applied-state is not updated (the prior
`config_hash` is left in place).  (a) a Chrome failure attempts nothing
else; (b) a Firefox failure (with Chrome absent or successful) never
attempts Edge; (c) whenever the apply sequence fails, the daemon iteration
returns that error and the persisted state is exactly the prior state. -/
theorem c1_amended_failure_short_circuits_and_preserves_state
    (sha256hex : String → String) (parseYaml : String → Except String Config)
    (applyChrome : ChromeConfig → Except String BrowserState)
    (applyFirefox : FirefoxConfig → Except String BrowserState)
    (applyEdge : EdgeConfig → Except String BrowserState)
    (cfg : Config) (oc : Option ChromeConfig) (oF : Option FirefoxConfig)
    (oe : Option EdgeConfig)
    (htriple : to_browser_configs cfg = (oc, oF, oe)) :
    (∀ c e, oc = some c → applyChrome c = .error e →
      apply_policy_config applyChrome applyFirefox applyEdge cfg = ⟨.error e, [.chrome]⟩) ∧
    (∀ f e, oF = some f → applyFirefox f = .error e →
      (∀ c, oc = some c → ∃ s, applyChrome c = .ok s) →
      (apply_policy_config applyChrome applyFirefox applyEdge cfg).result = .error e ∧
      Browser.edge ∉ (apply_policy_config applyChrome applyFirefox applyEdge cfg).attempted) ∧
    (∀ (now : Nat) (state : AgentState) (content : String) (etag : Option String) (e : String),
      state.config_hash ≠ some (compute_yaml_hash sha256hex content) →
      from_yaml_str parseYaml content = .ok cfg →
      (apply_policy_config applyChrome applyFirefox applyEdge cfg).result = .error e →
      check_and_apply_policy sha256hex parseYaml applyChrome applyFirefox applyEdge now state
          (.ok (.updated content etag)) =
        ⟨.error e, state, true,
          (apply_policy_config applyChrome applyFirefox applyEdge cfg).attempted⟩) := by
  refine ⟨?_, ?_, ?_⟩
  · intro c e hc he
    simp only [apply_policy_config, htriple, hc, he]
  · intro f e hf he hC
    rcases oc with _ | c
    · simp only [apply_policy_config, htriple, hf, he]
      exact ⟨trivial, by simp⟩
    · obtain ⟨s, hs⟩ := hC c rfl
      simp only [apply_policy_config, htriple, hf, he, hs]
      exact ⟨trivial, by simp⟩
  · intro now state content etag e hne hparse hrun
    simp only [check_and_apply_policy, if_neg hne, hparse]
    rcases hr : apply_policy_config applyChrome applyFirefox applyEdge cfg with ⟨res, tried⟩
    rw [hr] at hrun
    simp only at hrun
    subst hrun
    rfl

/-- Witness for the amended C1 claim at a concrete input. -/
theorem c1_amended_witness :
    to_browser_configs cfgChromeFirefox =
      (some { extensions := [], disable_incognito := some true, disable_guest_mode := none },
        some { extensions := [], disable_private_browsing := some true }, none) ∧
    applyChromeFails
        { extensions := [], disable_incognito := some true, disable_guest_mode := none }
      = .error "chrome boom" ∧
    apply_policy_config applyChromeFails applyFirefoxOk applyEdgeOk cfgChromeFirefox
      = ⟨.error "chrome boom", [Browser.chrome]⟩ :=
  ⟨rfl, rfl,
    (c1_amended_failure_short_circuits_and_preserves_state shaConstD parseAlwaysFails
        applyChromeFails applyFirefoxOk applyEdgeOk cfgChromeFirefox _ _ _ rfl).1
      _ _ rfl rfl⟩

/-! ## C2: the retry wrapper retries every error kind -/

/-- `retryFrom` after `k` consecutive failures followed by a success: the
run succeeds and sleeps exactly the geometric backoff sequence. -/
theorem retryFrom_ok_after_failures {ε : Type} (attempt : Nat → Except ε Bool)
    (retry_interval : Nat) (b : Bool) :
    ∀ (k idx remaining : Nat), k ≤ remaining →
      (∀ i, i < k → ∃ e, attempt (idx + i) = .error e) →
      attempt (idx + k) = .ok b →
      retryFrom attempt retry_interval idx remaining =
        (.ok b, (List.range k).map (fun i => retry_interval * 2 ^ (idx + i))) := by
  intro k
  induction k with
  | zero =>
    intro idx remaining _ _ hsucc
    rcases remaining with _ | r
    · simpa [retryFrom] using hsucc
    · simp only [retryFrom]
      rw [show idx + 0 = idx from rfl] at hsucc
      rw [hsucc]
      simp
  | succ k ih =>
    intro idx remaining hle hfail hsucc
    rcases remaining with _ | r
    · omega
    · obtain ⟨e, he⟩ := hfail 0 (Nat.succ_pos k)
      rw [show idx + 0 = idx from rfl] at he
      simp only [retryFrom, he]
      have hrest := ih (idx + 1) r (by omega)
        (fun i hi => by
          obtain ⟨e2, he2⟩ := hfail (i + 1) (by omega)
          exact ⟨e2, by rw [show idx + 1 + i = idx + (i + 1) by omega]; exact he2⟩)
        (by rw [show idx + 1 + k = idx + (k + 1) by omega]; exact hsucc)
      rw [hrest]
      refine Prod.ext rfl ?_
      simp only [List.range_succ_eq_map, List.map_cons, List.map_map]
      refine congrArg₂ _ (by rw [Nat.add_zero]) ?_
      refine List.map_congr_left (fun i _ => ?_)
      simp only [Function.comp]
      have hexp : idx + 1 + i = idx + i.succ := by omega
      rw [hexp]

/-- **C2 (amended).** Within one daemon iteration every error from
`check_and_apply_policy` — including the 401/403 access-denied and 404
not-found fetch errors, which reach the caller as ordinary opaque errors —
triggers the exponential-backoff retry: when the first `k ≤ max_retries`
attempts fail (with any errors whatsoever) and the next attempt succeeds,
the wrapper performs every retry, sleeping `retry_interval * 2 ^ (i - 1)`
seconds before retry `i`, and returns the success.  The status dispatch of
`fetch_policy` shows that 401/403/404 produce exactly such errors. -/
theorem c2_amended_every_error_retried {ε : Type} (retry_interval max_retries : Nat)
    (attempt : Nat → Except ε Bool) (k : Nat) (b : Bool)
    (hk : k ≤ max_retries)
    (hfail : ∀ i, i < k → ∃ e, attempt i = .error e)
    (hsucc : attempt k = .ok b) :
    check_and_apply_with_retry retry_interval max_retries attempt =
      (.ok b, (List.range k).map (fun i => retry_interval * 2 ^ i)) ∧
    fetch_policy .status404 = .error .notFound ∧
    fetch_policy .status401 = .error .accessDenied ∧
    fetch_policy .status403 = .error .accessDenied := by
  refine ⟨?_, rfl, rfl, rfl⟩
  have h := retryFrom_ok_after_failures attempt retry_interval b k 0 max_retries hk
    (fun i hi => by simpa using hfail i hi) (by simpa using hsucc)
  simpa [check_and_apply_with_retry] using h

/-- Concrete attempt sequence for C2: the first call fails with the 404
not-found fetch error, the second succeeds. -/
def attempt404ThenOk : Nat → Except FetchError Bool := fun i =>
  if i = 0 then
    match fetch_policy .status404 with
    | .error e => .error e
    | .ok _ => .ok false
  else .ok false

/-- **C2 counterexample.** With `retry_interval = 60`, `max_retries = 3`
and a first attempt failing with the 404 not-found fetch error, the wrapper
retries: it sleeps a 60-second backoff and returns the second attempt's
success instead of surfacing the not-found error without retrying — the
claim says a 404 failure is not retried before the next poll. -/
theorem c2_counterexample :
    attempt404ThenOk 0 = .error .notFound ∧
    check_and_apply_with_retry 60 3 attempt404ThenOk = (.ok false, [60]) :=
  ⟨rfl, rfl⟩

/-- Witness for the amended C2 claim: two failures then a success under
`retry_interval = 60`, `max_retries = 3` sleeps 60 s and then 120 s. -/
theorem c2_amended_witness :
    2 ≤ 3 ∧
    check_and_apply_with_retry 60 3
        (fun i => if i < 2 then (.error "transient") else .ok true) =
      (.ok true, [60, 120]) := by
  refine ⟨by omega, ?_⟩
  have h := c2_amended_every_error_retried (ε := String) 60 3
    (fun i => if i < 2 then (.error "transient") else .ok true) 2 true (by omega)
    (fun i hi => ⟨"transient", by simp [hi]⟩) (by simp)
  rw [h.1]
  rfl

/-! ## C5: applying the same document twice -/

/-- **C5.** For every valid policy document, applying it twice in sequence
(not in dry-run mode) performs surface writes only on the first apply: the
first run persists a state carrying the document's `config_hash`; the
second run, fed that state, compares the recomputed hash with the persisted
one, short-circuits reporting "No changes detected", and performs no
surface write and no state write. -/
theorem c5_second_apply_is_noop
    (sha256json : Config → String)
    (applyChrome : ChromeConfig → Except String BrowserState)
    (applyFirefox : FirefoxConfig → Except String BrowserState)
    (applyEdge : EdgeConfig → Except String BrowserState)
    (n1 n2 : Nat) (cfg : Config) (ap : AppliedPolicies)
    (hvalid : validate_config cfg = .ok ())
    (happly : (apply_policies applyChrome applyFirefox applyEdge cfg).result = .ok ap) :
    (install_policies sha256json applyChrome applyFirefox applyEdge n1 none cfg
        false).savedState = some (create_state sha256json n1 cfg ap) ∧
    (create_state sha256json n1 cfg ap).config_hash = compute_config_hash sha256json cfg ∧
    install_policies sha256json applyChrome applyFirefox applyEdge n2
        (some (create_state sha256json n1 cfg ap)) cfg false
      = ⟨.ok (), true, [], none⟩ := by
  refine ⟨?_, rfl, ?_⟩
  · rcases hr : apply_policies applyChrome applyFirefox applyEdge cfg with ⟨res, tried⟩
    rw [hr] at happly
    simp only at happly
    subst happly
    simp [install_policies, hr]
  · simp [install_policies, create_state, compute_config_hash]

/-- Witness for C5 at a concrete valid document. -/
theorem c5_second_apply_is_noop_witness :
    validate_config cfgChromeFirefox = .ok () ∧
    (apply_policies applyChromeOk applyFirefoxOk applyEdgeOk cfgChromeFirefox).result
      = .ok AppliedPolicies.default ∧
    install_policies shaConstJson applyChromeOk applyFirefoxOk applyEdgeOk 2
        (some (create_state shaConstJson 1 cfgChromeFirefox AppliedPolicies.default))
        cfgChromeFirefox false
      = ⟨.ok (), true, [], none⟩ :=
  ⟨rfl, rfl,
    (c5_second_apply_is_noop shaConstJson applyChromeOk applyFirefoxOk applyEdgeOk 1 2
      cfgChromeFirefox AppliedPolicies.default rfl rfl).2.2⟩

/-! ## C6: daily rollover before any accounting -/

/-- **C6.** On every load and at the start of every tick, if the current
wall-clock date differs from `state_date`, the whole state is rolled over
first: every child's `DayUsage` is reset (`used_seconds = 0`, sessions and
warnings empty, lock cleared), the active session is cleared and the
admin-override list emptied — `load_state` returns exactly the reset state,
and `track_iteration` proceeds exactly as it would from the reset state,
before any accounting. -/
theorem c6_daily_rollover_resets_everything
    (config : TimeLimitsConfig) (dateOf : Nat → String) (now : Nat) (weekday : Weekday)
    (current_user : String)
    (sendWarning : ChildState → Nat → Except String Unit)
    (sendFinalWarning : ChildState → Nat → Except String Unit)
    (enforceLock : ChildState → Except String Unit)
    (st : TimeLimitsState)
    (hne : st.state_date ≠ dateOf now) :
    (st.version = STATE_VERSION →
      load_state_processed (dateOf now) st = some (st.reset_for_new_day (dateOf now))) ∧
    track_iteration config dateOf now weekday current_user sendWarning sendFinalWarning
        enforceLock st =
      track_iteration config dateOf now weekday current_user sendWarning sendFinalWarning
        enforceLock (st.reset_for_new_day (dateOf now)) ∧
    (∀ child ∈ (st.reset_for_new_day (dateOf now)).children,
      child.today.used_seconds = 0 ∧ child.today.sessions = [] ∧
        child.today.warnings_shown = [] ∧ child.today.locked_at = none) ∧
    (st.reset_for_new_day (dateOf now)).active_session = none ∧
    (st.reset_for_new_day (dateOf now)).admin_overrides = [] := by
  refine ⟨?_, ?_, ?_, rfl, rfl⟩
  · intro hv
    simp [load_state_processed, hv, TimeLimitsState.needs_daily_reset, hne]
  · have h1 : st.needs_daily_reset (dateOf now) = true := by
      simp [TimeLimitsState.needs_daily_reset, hne]
    have h2 : (st.reset_for_new_day (dateOf now)).needs_daily_reset (dateOf now) = false := by
      simp [TimeLimitsState.needs_daily_reset, TimeLimitsState.reset_for_new_day]
    simp only [track_iteration, h1, h2, if_true, if_false, Bool.false_eq_true]
  · intro child hmem
    simp only [TimeLimitsState.reset_for_new_day, List.mem_map] at hmem
    obtain ⟨c, _, rfl⟩ := hmem
    exact ⟨rfl, rfl, rfl, rfl⟩

/-- A tracker state dated `"2025-01-01"` with one used-up, locked child, an
active session and one override. -/
def staleTrackerState : TimeLimitsState :=
  { version := "1.0"
    state_date := "2025-01-01"
    children :=
      [{ id := "kid1"
         name := "Alice"
         today :=
           { date := "2025-01-01"
             used_seconds := 7200
             remaining_seconds := 0
             sessions := []
             warnings_shown := ["15min"]
             locked_at := some 3 } }]
    active_session := some (ActiveSession.new "kid1" 1)
    admin_overrides :=
      [{ child_id := "kid1"
         override_type := .extension
         additional_seconds := some 600
         granted_at := 2
         granted_by := "admin"
         reason := none }] }

/-- Witness for C6: the stale state is reset on load. -/
theorem c6_daily_rollover_witness :
    staleTrackerState.state_date ≠ "2025-01-02" ∧
    staleTrackerState.version = STATE_VERSION ∧
    load_state_processed "2025-01-02" staleTrackerState
      = some (staleTrackerState.reset_for_new_day "2025-01-02") ∧
    (staleTrackerState.reset_for_new_day "2025-01-02").active_session = none ∧
    (staleTrackerState.reset_for_new_day "2025-01-02").admin_overrides = [] := by
  have h := c6_daily_rollover_resets_everything
    { admin := { password_hash := "h", admin_accounts := [] }
      children := []
      shared_login :=
        { enabled := false, shared_accounts := [], require_selection := true,
          allow_switching := false, auto_select_if_unique := false }
      enforcement :=
        { action := .lock, prevent_time_manipulation := true,
          require_admin_to_quit := true, self_protection := true } }
    (fun _ => "2025-01-02") 0 .mon "u" (fun _ _ => .ok ()) (fun _ _ => .ok ())
    (fun _ => .ok ()) staleTrackerState (by decide)
  exact ⟨by decide, rfl, h.1 rfl, h.2.2.2.1, h.2.2.2.2⟩

/-! ## Helper lemmas about child-list surgery -/

/-- `updateFirstChild` is the identity when no child matches. -/
theorem updateFirstChild_of_absent (id : String) (f : ChildState → ChildState) :
    ∀ children : List ChildState, (∀ c ∈ children, c.id ≠ id) →
      updateFirstChild children id f = children := by
  intro children
  induction children with
  | nil => intro _; rfl
  | cons c rest ih =>
    intro h
    have hc : (c.id == id) = false := by
      simp only [beq_eq_false_iff_ne, ne_eq]
      exact h c (List.mem_cons_self c rest)
    simp only [updateFirstChild, hc, Bool.false_eq_true, if_false, List.cons.injEq, true_and]
    exact ih (fun d hd => h d (List.mem_cons_of_mem c hd))

/-- `find?` after `updateFirstChild` with an id-preserving update maps the
old find result through the update. -/
theorem find?_updateFirstChild (id : String) (f : ChildState → ChildState)
    (hf : ∀ c, (f c).id = c.id) :
    ∀ children : List ChildState,
      (updateFirstChild children id f).find? (fun c => c.id == id) =
        (children.find? (fun c => c.id == id)).map f := by
  intro children
  induction children with
  | nil => rfl
  | cons c rest ih =>
    by_cases hc : (c.id == id) = true
    · have hfc : ((f c).id == id) = true := by rw [hf c]; exact hc
      have h1 : updateFirstChild (c :: rest) id f = f c :: rest := by
        simp [updateFirstChild, hc]
      rw [h1, List.find?_cons_of_pos (p := fun c : ChildState => c.id == id) rest hfc,
        List.find?_cons_of_pos (p := fun c : ChildState => c.id == id) rest hc]
      rfl
    · have h1 : updateFirstChild (c :: rest) id f = c :: updateFirstChild rest id f := by
        simp [updateFirstChild, hc]
      rw [h1, List.find?_cons_of_neg (p := fun c : ChildState => c.id == id) _ hc,
        List.find?_cons_of_neg (p := fun c : ChildState => c.id == id) rest hc, ih]

/-- Variant of `find?_updateFirstChild` for a constant replacement carrying
the requested id (the shape used by `set_child`). -/
theorem find?_updateFirstChild_const (id : String) (child : ChildState)
    (hid : child.id = id) :
    ∀ children : List ChildState,
      (updateFirstChild children id (fun _ => child)).find? (fun c => c.id == id) =
        (children.find? (fun c => c.id == id)).map (fun _ => child) := by
  intro children
  induction children with
  | nil => rfl
  | cons c rest ih =>
    by_cases hc : (c.id == id) = true
    · have hcc : (child.id == id) = true := by rw [hid]; exact beq_self_eq_true id
      have h1 : updateFirstChild (c :: rest) id (fun _ => child) = child :: rest := by
        simp [updateFirstChild, hc]
      rw [h1, List.find?_cons_of_pos (p := fun c : ChildState => c.id == id) rest hcc,
        List.find?_cons_of_pos (p := fun c : ChildState => c.id == id) rest hc]
      rfl
    · have h1 : updateFirstChild (c :: rest) id (fun _ => child)
          = c :: updateFirstChild rest id (fun _ => child) := by
        simp [updateFirstChild, hc]
      rw [h1, List.find?_cons_of_neg (p := fun c : ChildState => c.id == id) _ hc,
        List.find?_cons_of_neg (p := fun c : ChildState => c.id == id) rest hc, ih]

/-- `get_or_create_child` returns a child whose `id` field is the requested
id, and the returned state's first matching child is exactly the returned
child. -/
theorem get_or_create_child_spec (st : TimeLimitsState) (today id name : String) :
    (st.get_or_create_child today id name).2.id = id ∧
    ((st.get_or_create_child today id name).1.get_child id
      = some (st.get_or_create_child today id name).2) := by
  rcases hfind : st.children.find? (fun c => c.id == id) with _ | c
  · constructor
    · simp [TimeLimitsState.get_or_create_child, hfind]
    · simp only [TimeLimitsState.get_or_create_child, TimeLimitsState.get_child, hfind]
      rw [List.find?_append, hfind]
      simp [List.find?]
  · have hcid := List.find?_some hfind
    constructor
    · simp only [TimeLimitsState.get_or_create_child, hfind]
      simpa using hcid
    · simp [TimeLimitsState.get_or_create_child, TimeLimitsState.get_child, hfind]

/-- `set_child` with a child carrying the requested id makes `get_child`
return that child, provided some child with the id was present. -/
theorem get_child_set_child (st : TimeLimitsState) (id : String) (child : ChildState)
    (hid : child.id = id) (hpresent : (st.get_child id).isSome = true) :
    (st.set_child id child).get_child id = some child := by
  unfold TimeLimitsState.set_child TimeLimitsState.get_child
  rw [find?_updateFirstChild_const id child hid]
  unfold TimeLimitsState.get_child at hpresent
  rcases h : st.children.find? (fun c => c.id == id) with _ | c
  · rw [h] at hpresent; simp at hpresent
  · rw [h]; rfl

/-! ## C9: `grant_extension` success and failure -/

/-- **C9.** `grant_extension` with a password that verifies appends exactly
one Extension override of `minutes * 60` additional seconds and clears any
existing lock on that child; with a password that does not verify it
returns an error and leaves the tracker state completely unchanged. -/
theorem c9_grant_extension_auth
    (verify : String → String → Except String Bool) (current_user : String) (now : Nat)
    (config : TimeLimitsConfig) (st : TimeLimitsState) (child_id : String)
    (minutes : Nat) (pw : String) (reason : Option String) :
    (verify pw config.admin.password_hash = .ok true →
      (grant_extension verify current_user now config st child_id minutes pw reason).1
        = .ok () ∧
      (grant_extension verify current_user now config st child_id minutes pw
          reason).2.admin_overrides
        = st.admin_overrides ++
          [{ child_id := child_id
             override_type := .extension
             additional_seconds := some ((minutes : Int) * 60)
             granted_at := now
             granted_by := current_user
             reason := reason }] ∧
      (∀ c, st.get_child child_id = some c →
        (grant_extension verify current_user now config st child_id minutes pw
            reason).2.get_child child_id
          = some { c with today := c.today.unlock })) ∧
    (verify pw config.admin.password_hash = .ok false →
      grant_extension verify current_user now config st child_id minutes pw reason
        = (.error "Invalid admin password", st)) := by
  constructor
  · intro hv
    refine ⟨by simp [grant_extension, hv], by simp [grant_extension, hv], ?_⟩
    intro c hc
    simp only [grant_extension, hv]
    unfold TimeLimitsState.get_child at hc ⊢
    simp only
    rw [find?_updateFirstChild child_id
      (fun child => { child with today := child.today.unlock }) (fun c => rfl), hc]
    rfl
  · intro hv
    simp [grant_extension, hv]

/-- An admin-password verifier fixture: the password must equal the stored
hash string. -/
def verifyEq : String → String → Except String Bool := fun pw hash => .ok (pw == hash)

/-- A child profile fixture: two-hour weekday limit, four-hour weekend
limit, warnings at 15/5/1 minutes, 60-second grace. -/
def kidProfileA : ChildProfile :=
  { id := "kid1"
    name := "Alice"
    os_users := ["alice"]
    limits :=
      { weekday := { hours := 2, minutes := 0 }
        weekend := { hours := 4, minutes := 0 }
        custom := [] }
    warnings := [15, 5, 1]
    grace_period := 60 }

/-- A one-child time-limits configuration fixture. -/
def tlConfigA : TimeLimitsConfig :=
  { admin := { password_hash := "secret", admin_accounts := ["admin"] }
    children := [kidProfileA]
    shared_login :=
      { enabled := false, shared_accounts := [], require_selection := true,
        allow_switching := false, auto_select_if_unique := false }
    enforcement :=
      { action := .lock, prevent_time_manipulation := true,
        require_admin_to_quit := true, self_protection := true } }

/-- A tracker state for today (`"2025-01-02"`) whose only child `kid1` is
locked. -/
def lockedTrackerState : TimeLimitsState :=
  { version := "1.0"
    state_date := "2025-01-02"
    children :=
      [{ id := "kid1"
         name := "Alice"
         today :=
           { date := "2025-01-02"
             used_seconds := 7200
             remaining_seconds := 0
             sessions := []
             warnings_shown := ["15min", "5min", "1min"]
             locked_at := some 9 } }]
    active_session := none
    admin_overrides := [] }

/-- Witness for C9: with the correct password the override is appended and
the lock cleared; with a wrong password the state is untouched. -/
theorem c9_grant_extension_auth_witness :
    verifyEq "secret" tlConfigA.admin.password_hash = .ok true ∧
    verifyEq "wrong" tlConfigA.admin.password_hash = .ok false ∧
    (grant_extension verifyEq "admin" 10 tlConfigA lockedTrackerState "kid1" 30 "secret"
        none).2.admin_overrides
      = [{ child_id := "kid1"
           override_type := .extension
           additional_seconds := some 1800
           granted_at := 10
           granted_by := "admin"
           reason := none }] ∧
    grant_extension verifyEq "admin" 10 tlConfigA lockedTrackerState "kid1" 30 "wrong" none
      = (.error "Invalid admin password", lockedTrackerState) := by
  have h := c9_grant_extension_auth verifyEq "admin" 10 tlConfigA lockedTrackerState
    "kid1" 30 "secret" none
  have h2 := c9_grant_extension_auth verifyEq "admin" 10 tlConfigA lockedTrackerState
    "kid1" 30 "wrong" none
  refine ⟨rfl, rfl, ?_, h2.2 rfl⟩
  rw [(h.1 rfl).2.1]
  rfl

/-! ## C10: unknown child id in `grant_extension` vs `reset_time` -/

/-- **C10.** With a correct admin password and a `child_id` matching no
child in the tracker state (`grant_extension` consults no configuration
list at all, so an id unknown to the config behaves the same),
`grant_extension` still succeeds and appends the override — only the
lock-clearing step is silently skipped, leaving the child list unchanged —
whereas `reset_time` with the same unknown id fails with "Child not found"
and appends no override, leaving the state untouched. -/
theorem c10_unknown_child_grant_vs_reset
    (verify : String → String → Except String Bool) (current_user : String) (now : Nat)
    (config : TimeLimitsConfig) (st : TimeLimitsState) (child_id : String)
    (minutes : Nat) (pw : String) (reason : Option String)
    (hverify : verify pw config.admin.password_hash = .ok true)
    (habsent : ∀ c ∈ st.children, c.id ≠ child_id) :
    (grant_extension verify current_user now config st child_id minutes pw reason).1
      = .ok () ∧
    (grant_extension verify current_user now config st child_id minutes pw
        reason).2.admin_overrides
      = st.admin_overrides ++
        [{ child_id := child_id
           override_type := .extension
           additional_seconds := some ((minutes : Int) * 60)
           granted_at := now
           granted_by := current_user
           reason := reason }] ∧
    (grant_extension verify current_user now config st child_id minutes pw
        reason).2.children = st.children ∧
    reset_time verify current_user now config st child_id pw
      = (.error "Child not found", st) := by
  refine ⟨by simp [grant_extension, hverify], by simp [grant_extension, hverify], ?_, ?_⟩
  · simp only [grant_extension, hverify]
    exact updateFirstChild_of_absent child_id _ st.children habsent
  · have hany : (st.children.any (fun c => c.id == child_id)) = false := by
      simp only [List.any_eq_false]
      intro c hc
      simpa using habsent c hc
    simp [reset_time, hverify, hany]

/-- Witness for C10: granting to the unknown id `"ghost"` succeeds while
resetting it fails. -/
theorem c10_unknown_child_witness :
    verifyEq "secret" tlConfigA.admin.password_hash = .ok true ∧
    (∀ c ∈ lockedTrackerState.children, c.id ≠ "ghost") ∧
    (grant_extension verifyEq "admin" 11 tlConfigA lockedTrackerState "ghost" 15 "secret"
        none).1 = .ok () ∧
    (grant_extension verifyEq "admin" 11 tlConfigA lockedTrackerState "ghost" 15 "secret"
        none).2.children = lockedTrackerState.children ∧
    reset_time verifyEq "admin" 11 tlConfigA lockedTrackerState "ghost" "secret"
      = (.error "Child not found", lockedTrackerState) := by
  have habsent : ∀ c ∈ lockedTrackerState.children, c.id ≠ "ghost" := by decide
  have h := c10_unknown_child_grant_vs_reset verifyEq "admin" 11 tlConfigA
    lockedTrackerState "ghost" 15 "secret" none rfl habsent
  exact ⟨rfl, habsent, h.1, h.2.2.1, h.2.2.2⟩

/-! ## C7: the remaining-time equation and bounds after a tick -/

/-- `mark_warning_shown` touches only `warnings_shown`. -/
theorem mark_warning_shown_fields (d : DayUsage) (w : Nat) :
    (d.mark_warning_shown w).date = d.date ∧
    (d.mark_warning_shown w).used_seconds = d.used_seconds ∧
    (d.mark_warning_shown w).remaining_seconds = d.remaining_seconds ∧
    (d.mark_warning_shown w).sessions = d.sessions ∧
    (d.mark_warning_shown w).locked_at = d.locked_at := by
  by_cases h : (toString w ++ "min") ∈ d.warnings_shown
  · simp [DayUsage.mark_warning_shown, h]
  · simp [DayUsage.mark_warning_shown, h]

/-- The warnings loop touches only `warnings_shown` of the child. -/
theorem warningsLoop_preserves (sw : ChildState → Nat → Except String Unit)
    (remaining : Int) :
    ∀ (ws : List Nat) (child : ChildState) (sent : List Nat),
      (warningsLoop sw ws remaining child sent).2.1.id = child.id ∧
      (warningsLoop sw ws remaining child sent).2.1.name = child.name ∧
      (warningsLoop sw ws remaining child sent).2.1.today.date = child.today.date ∧
      (warningsLoop sw ws remaining child sent).2.1.today.used_seconds
        = child.today.used_seconds ∧
      (warningsLoop sw ws remaining child sent).2.1.today.remaining_seconds
        = child.today.remaining_seconds ∧
      (warningsLoop sw ws remaining child sent).2.1.today.sessions
        = child.today.sessions ∧
      (warningsLoop sw ws remaining child sent).2.1.today.locked_at
        = child.today.locked_at := by
  intro ws
  induction ws with
  | nil => intro child sent; exact ⟨rfl, rfl, rfl, rfl, rfl, rfl, rfl⟩
  | cons w rest ih =>
    intro child sent
    show (warningsLoop sw (w :: rest) remaining child sent).2.1.id = child.id ∧ _
    simp only [warningsLoop]
    by_cases hcond : remaining ≤ (w : Int) * 60 ∧ (w : Int) * 60 - 10 < remaining
    · rw [if_pos hcond]
      by_cases hshow : child.today.should_show_warning w = true
      · rw [if_pos hshow]
        rcases sw child w with e | u
        · exact ⟨rfl, rfl, rfl, rfl, rfl, rfl, rfl⟩
        · have hmark := mark_warning_shown_fields child.today w
          have hrec := ih { child with today := child.today.mark_warning_shown w }
            (sent ++ [w])
          exact ⟨hrec.1, hrec.2.1,
            hrec.2.2.1.trans hmark.1,
            hrec.2.2.2.1.trans hmark.2.1,
            hrec.2.2.2.2.1.trans hmark.2.2.1,
            hrec.2.2.2.2.2.1.trans hmark.2.2.2.1,
            hrec.2.2.2.2.2.2.trans hmark.2.2.2.2⟩
      · rw [if_neg hshow]
        exact ih child sent
    · rw [if_neg hcond]
      exact ih child sent

/-- `TimeLimit.to_seconds` is non-negative. -/
theorem to_seconds_nonneg (t : TimeLimit) : 0 ≤ t.to_seconds := by
  unfold TimeLimit.to_seconds
  positivity

/-- One tick under the accounting hypotheses (no rollover pending, an
active unpaused session, the child present in the config and not locked)
reduces to the increment / recompute / warn / maybe-lock pipeline. -/
theorem track_iteration_accounting_eq
    (config : TimeLimitsConfig) (dateOf : Nat → String) (now : Nat) (weekday : Weekday)
    (current_user : String)
    (sw sfw : ChildState → Nat → Except String Unit)
    (el : ChildState → Except String Unit)
    (st st1 : TimeLimitsState) (ses : ActiveSession) (child_config : ChildProfile)
    (child0 : ChildState)
    (hdate : st.state_date = dateOf now)
    (hses : st.active_session = some ses)
    (hpaused : ses.paused = false)
    (hcfg : config.children.find? (fun c => c.id == ses.child_id) = some child_config)
    (hpair : st.get_or_create_child (dateOf now) ses.child_id child_config.name
      = (st1, child0))
    (hnotlocked : child0.today.is_locked = false) :
    track_iteration config dateOf now weekday current_user sw sfw el st =
      match warningsLoop sw child_config.warnings
          (calculate_remaining_time child_config weekday (child0.today.used_seconds + 10)
            (some (get_today_overrides dateOf (dateOf now) ses.child_id
              st.admin_overrides)))
          { id := child0.id
            name := child0.name
            today :=
              { date := child0.today.date
                used_seconds := child0.today.used_seconds + 10
                remaining_seconds :=
                  calculate_remaining_time child_config weekday
                    (child0.today.used_seconds + 10)
                    (some (get_today_overrides dateOf (dateOf now) ses.child_id
                      st.admin_overrides))
                sessions := child0.today.sessions
                warnings_shown := child0.today.warnings_shown
                locked_at := child0.today.locked_at } } [] with
      | (.error e, child, sent) =>
        ⟨.error e, st1.set_child ses.child_id child, ⟨sent, false, false⟩⟩
      | (.ok _, child, sent) =>
        if calculate_remaining_time child_config weekday (child0.today.used_seconds + 10)
            (some (get_today_overrides dateOf (dateOf now) ses.child_id
              st.admin_overrides)) ≤ 0 then
          match sfw child child_config.grace_period with
          | .error e =>
            ⟨.error e, st1.set_child ses.child_id child, ⟨sent, false, false⟩⟩
          | .ok _ =>
            match el { id := child.id, name := child.name, today := child.today.lock now } with
            | .error e =>
              ⟨.error e,
                st1.set_child ses.child_id
                  { id := child.id, name := child.name, today := child.today.lock now },
                ⟨sent, true, false⟩⟩
            | .ok _ =>
              ⟨.ok (),
                st1.set_child ses.child_id
                  { id := child.id, name := child.name, today := child.today.lock now },
                ⟨sent, true, true⟩⟩
        else ⟨.ok (), st1.set_child ses.child_id child, ⟨sent, false, false⟩⟩ := by
  have hreset : st.needs_daily_reset (dateOf now) = false := by
    simp [TimeLimitsState.needs_daily_reset, hdate]
  simp only [track_iteration, hreset, Bool.false_eq_true, if_false, hses, hpaused, hcfg,
    hpair, hnotlocked]

/-- `DayUsage.lock` touches only `locked_at`. -/
theorem lock_fields (d : DayUsage) (now : Nat) :
    (d.lock now).date = d.date ∧
    (d.lock now).used_seconds = d.used_seconds ∧
    (d.lock now).remaining_seconds = d.remaining_seconds ∧
    (d.lock now).sessions = d.sessions ∧
    (d.lock now).warnings_shown = d.warnings_shown := by
  rcases hL : d.locked_at with _ | t
  · simp [DayUsage.lock, hL]
  · simp [DayUsage.lock, hL]

/-- **C7.** After every tick that accounts time for an active, unlocked
child, the child's `remaining_seconds` equals
`max (0, base_limit + additional - used_seconds)` where `base_limit` is
today's limit from the schedule (`get_limit_for_today`: the first
custom-day rule matching today's weekday, else the weekend limit on
Sat/Sun, else the weekday limit) and `additional` is the sum of
`additional_seconds` over today's admin overrides for that child; in
particular, for the non-negative usage and overrides the tracker itself
produces, `0 ≤ remaining_seconds ≤ base_limit + additional`. -/
theorem c7_remaining_seconds_equation
    (config : TimeLimitsConfig) (dateOf : Nat → String) (now : Nat) (weekday : Weekday)
    (current_user : String)
    (sw sfw : ChildState → Nat → Except String Unit)
    (el : ChildState → Except String Unit)
    (st st1 : TimeLimitsState) (ses : ActiveSession) (child_config : ChildProfile)
    (child0 : ChildState)
    (hdate : st.state_date = dateOf now)
    (hses : st.active_session = some ses)
    (hpaused : ses.paused = false)
    (hcfg : config.children.find? (fun c => c.id == ses.child_id) = some child_config)
    (hpair : st.get_or_create_child (dateOf now) ses.child_id child_config.name
      = (st1, child0))
    (hnotlocked : child0.today.is_locked = false)
    (hused : 0 ≤ child0.today.used_seconds)
    (hadd : 0 ≤ get_today_overrides dateOf (dateOf now) ses.child_id st.admin_overrides) :
    ∃ child1,
      (track_iteration config dateOf now weekday current_user sw sfw el
          st).state.get_child ses.child_id = some child1 ∧
      child1.today.used_seconds = child0.today.used_seconds + 10 ∧
      child1.today.remaining_seconds =
        max ((get_limit_for_today child_config weekday).to_seconds
          + get_today_overrides dateOf (dateOf now) ses.child_id st.admin_overrides
          - (child0.today.used_seconds + 10)) 0 ∧
      0 ≤ child1.today.remaining_seconds ∧
      child1.today.remaining_seconds ≤
        (get_limit_for_today child_config weekday).to_seconds
          + get_today_overrides dateOf (dateOf now) ses.child_id st.admin_overrides := by
  have key := track_iteration_accounting_eq config dateOf now weekday current_user sw sfw
    el st st1 ses child_config child0 hdate hses hpaused hcfg hpair hnotlocked
  have hspec := get_or_create_child_spec st (dateOf now) ses.child_id child_config.name
  rw [hpair] at hspec
  simp only at hspec
  obtain ⟨hid0, hget0⟩ := hspec
  have hpresent : (st1.get_child ses.child_id).isSome = true := by
    rw [hget0]; rfl
  have hRval : calculate_remaining_time child_config weekday
      (child0.today.used_seconds + 10)
      (some (get_today_overrides dateOf (dateOf now) ses.child_id st.admin_overrides)) =
      max ((get_limit_for_today child_config weekday).to_seconds
        + get_today_overrides dateOf (dateOf now) ses.child_id st.admin_overrides
        - (child0.today.used_seconds + 10)) 0 := by
    simp [calculate_remaining_time]
  have hBnonneg : 0 ≤ (get_limit_for_today child_config weekday).to_seconds :=
    to_seconds_nonneg _
  have hRnonneg : 0 ≤ calculate_remaining_time child_config weekday
      (child0.today.used_seconds + 10)
      (some (get_today_overrides dateOf (dateOf now) ses.child_id st.admin_overrides)) := by
    rw [hRval]; exact le_max_right _ _
  have hRle : calculate_remaining_time child_config weekday
      (child0.today.used_seconds + 10)
      (some (get_today_overrides dateOf (dateOf now) ses.child_id st.admin_overrides)) ≤
      (get_limit_for_today child_config weekday).to_seconds
        + get_today_overrides dateOf (dateOf now) ses.child_id st.admin_overrides := by
    rw [hRval]
    apply max_le
    · linarith
    · linarith
  rcases hloop : warningsLoop sw child_config.warnings
      (calculate_remaining_time child_config weekday (child0.today.used_seconds + 10)
        (some (get_today_overrides dateOf (dateOf now) ses.child_id st.admin_overrides)))
      { id := child0.id
        name := child0.name
        today :=
          { date := child0.today.date
            used_seconds := child0.today.used_seconds + 10
            remaining_seconds :=
              calculate_remaining_time child_config weekday
                (child0.today.used_seconds + 10)
                (some (get_today_overrides dateOf (dateOf now) ses.child_id
                  st.admin_overrides))
            sessions := child0.today.sessions
            warnings_shown := child0.today.warnings_shown
            locked_at := child0.today.locked_at } } []
    with ⟨res, child2, sent⟩
  have hpres := warningsLoop_preserves sw
    (calculate_remaining_time child_config weekday (child0.today.used_seconds + 10)
      (some (get_today_overrides dateOf (dateOf now) ses.child_id st.admin_overrides)))
    child_config.warnings
    { id := child0.id
      name := child0.name
      today :=
        { date := child0.today.date
          used_seconds := child0.today.used_seconds + 10
          remaining_seconds :=
            calculate_remaining_time child_config weekday
              (child0.today.used_seconds + 10)
              (some (get_today_overrides dateOf (dateOf now) ses.child_id
                st.admin_overrides))
          sessions := child0.today.sessions
          warnings_shown := child0.today.warnings_shown
          locked_at := child0.today.locked_at } } []
  rw [hloop] at hpres
  simp only at hpres
  have hid2 : child2.id = ses.child_id := by rw [hpres.1]; exact hid0
  have hused2 : child2.today.used_seconds = child0.today.used_seconds + 10 :=
    hpres.2.2.2.1
  have hrem2 : child2.today.remaining_seconds =
      calculate_remaining_time child_config weekday (child0.today.used_seconds + 10)
        (some (get_today_overrides dateOf (dateOf now) ses.child_id st.admin_overrides)) :=
    hpres.2.2.2.2.1
  have hlockfields := lock_fields child2.today now
  rcases res with e | u
  · refine ⟨child2, ?_, hused2, by rw [hrem2]; exact hRval, by rw [hrem2]; exact hRnonneg,
      by rw [hrem2]; exact hRle⟩
    rw [key, hloop]
    exact get_child_set_child st1 ses.child_id child2 hid2 hpresent
  · by_cases hRz : calculate_remaining_time child_config weekday
        (child0.today.used_seconds + 10)
        (some (get_today_overrides dateOf (dateOf now) ses.child_id
          st.admin_overrides)) ≤ 0
    · rcases hsfw : sfw child2 child_config.grace_period with e | u2
      · refine ⟨child2, ?_, hused2, by rw [hrem2]; exact hRval,
          by rw [hrem2]; exact hRnonneg, by rw [hrem2]; exact hRle⟩
        rw [key, hloop]
        dsimp only
        rw [if_pos hRz, hsfw]
        exact get_child_set_child st1 ses.child_id child2 hid2 hpresent
      · rcases hel :
            el ⟨child2.id, child2.name, child2.today.lock now⟩
          with e | u3
        · refine ⟨⟨child2.id, child2.name, child2.today.lock now⟩, ?_, ?_, ?_, ?_, ?_⟩
          · rw [key, hloop]
            dsimp only
            rw [if_pos hRz, hsfw, hel]
            exact get_child_set_child st1 ses.child_id _ hid2 hpresent
          · show (child2.today.lock now).used_seconds = _
            rw [hlockfields.2.1]; exact hused2
          · show (child2.today.lock now).remaining_seconds = _
            rw [hlockfields.2.2.1, hrem2]; exact hRval
          · show (0 : Int) ≤ (child2.today.lock now).remaining_seconds
            rw [hlockfields.2.2.1, hrem2]; exact hRnonneg
          · show (child2.today.lock now).remaining_seconds ≤ _
            rw [hlockfields.2.2.1, hrem2]; exact hRle
        · refine ⟨⟨child2.id, child2.name, child2.today.lock now⟩, ?_, ?_, ?_, ?_, ?_⟩
          · rw [key, hloop]
            dsimp only
            rw [if_pos hRz, hsfw, hel]
            exact get_child_set_child st1 ses.child_id _ hid2 hpresent
          · show (child2.today.lock now).used_seconds = _
            rw [hlockfields.2.1]; exact hused2
          · show (child2.today.lock now).remaining_seconds = _
            rw [hlockfields.2.2.1, hrem2]; exact hRval
          · show (0 : Int) ≤ (child2.today.lock now).remaining_seconds
            rw [hlockfields.2.2.1, hrem2]; exact hRnonneg
          · show (child2.today.lock now).remaining_seconds ≤ _
            rw [hlockfields.2.2.1, hrem2]; exact hRle
    · refine ⟨child2, ?_, hused2, by rw [hrem2]; exact hRval,
        by rw [hrem2]; exact hRnonneg, by rw [hrem2]; exact hRle⟩
      rw [key, hloop]
      dsimp only
      rw [if_neg hRz]
      exact get_child_set_child st1 ses.child_id child2 hid2 hpresent

/-- Child state fixture: 1000 seconds used today, not locked. -/
def runningChild : ChildState :=
  { id := "kid1"
    name := "Alice"
    today :=
      { date := "2025-01-02"
        used_seconds := 1000
        remaining_seconds := 0
        sessions := []
        warnings_shown := []
        locked_at := none } }

/-- Tracker state fixture with an active unpaused session for `kid1`. -/
def runningTrackerState : TimeLimitsState :=
  { version := "1.0"
    state_date := "2025-01-02"
    children := [runningChild]
    active_session := some ⟨"kid1", 50, 50, false⟩
    admin_overrides := [] }

/-- Witness for C7: a midweek tick over the fixture computes
`used = 1010` and `remaining = max (7200 + 0 - 1010) 0 = 6190`. -/
theorem c7_remaining_seconds_equation_witness :
    ((track_iteration tlConfigA (fun _ => "2025-01-02") 100 .wed "alice"
        (fun _ _ => .ok ()) (fun _ _ => .ok ()) (fun _ => .ok ())
        runningTrackerState).state.get_child "kid1").map
      (fun c => (c.today.used_seconds, c.today.remaining_seconds))
      = some ((1010 : Int), (6190 : Int)) := by
  obtain ⟨c, hc, hu, hr, _, _⟩ := c7_remaining_seconds_equation tlConfigA
    (fun _ => "2025-01-02") 100 .wed "alice" (fun _ _ => .ok ()) (fun _ _ => .ok ())
    (fun _ => .ok ()) runningTrackerState runningTrackerState
    ⟨"kid1", 50, 50, false⟩ kidProfileA runningChild rfl rfl rfl rfl rfl rfl
    (by decide) (by decide)
  have hc2 : (track_iteration tlConfigA (fun _ => "2025-01-02") 100 .wed "alice"
      (fun _ _ => .ok ()) (fun _ _ => .ok ()) (fun _ => .ok ())
      runningTrackerState).state.get_child "kid1" = some c := hc
  rw [hc2]
  show some (c.today.used_seconds, c.today.remaining_seconds)
    = some ((1010 : Int), (6190 : Int))
  rw [hu, hr]
  decide

/-! ## C8: threshold warnings sent during a tick -/

/-- Marking one threshold leaves `should_show_warning` unchanged at any
threshold with a different warning key. -/
theorem should_show_mark_ne (d : DayUsage) (v w : Nat)
    (hne : toString w ++ "min" ≠ toString v ++ "min") :
    (d.mark_warning_shown v).should_show_warning w = d.should_show_warning w := by
  by_cases h : (toString v ++ "min") ∈ d.warnings_shown
  · simp [DayUsage.mark_warning_shown, h]
  · simp [DayUsage.mark_warning_shown, DayUsage.should_show_warning, h, hne]

/-- After marking a threshold its warning is no longer due. -/
theorem should_show_mark_self (d : DayUsage) (v : Nat) :
    (d.mark_warning_shown v).should_show_warning v = false := by
  by_cases h : (toString v ++ "min") ∈ d.warnings_shown
  · simp [DayUsage.mark_warning_shown, DayUsage.should_show_warning, h]
  · simp [DayUsage.mark_warning_shown, DayUsage.should_show_warning, h]

/-- Marking never resurrects an already-shown warning. -/
theorem should_show_mark_false (d : DayUsage) (v w : Nat)
    (h : d.should_show_warning w = false) :
    (d.mark_warning_shown v).should_show_warning w = false := by
  have hw : (toString w ++ "min") ∈ d.warnings_shown := by
    simpa [DayUsage.should_show_warning] using h
  by_cases hm : (toString v ++ "min") ∈ d.warnings_shown
  · simp [DayUsage.mark_warning_shown, DayUsage.should_show_warning, hm, hw]
  · simp [DayUsage.mark_warning_shown, DayUsage.should_show_warning, hm, hw]

/-- Full specification of the warnings loop for a never-failing
notification sender: it succeeds; a threshold is in the emitted list iff it
was already in `sent` or it is a configured threshold in the firing window
`remaining ≤ w*60 < remaining + 10` that was still due; each emitted
threshold is marked shown; and no threshold is emitted twice.  The
`Pairwise` hypothesis says the configured thresholds have pairwise distinct
warning keys (guaranteed by config validation, which requires strictly
descending thresholds). -/
theorem warningsLoop_spec (sw : ChildState → Nat → Except String Unit)
    (hsw : ∀ c w, sw c w = .ok ()) (remaining : Int) :
    ∀ (ws : List Nat) (child : ChildState) (sent : List Nat),
      ws.Pairwise (fun a b => toString a ++ "min" ≠ toString b ++ "min") →
      (∀ v ∈ sent, child.today.should_show_warning v = false) →
      ((warningsLoop sw ws remaining child sent).1 = .ok () ∧
       (∀ w, w ∈ (warningsLoop sw ws remaining child sent).2.2 ↔
         (w ∈ sent ∨ (w ∈ ws ∧ remaining ≤ (w : Int) * 60 ∧
           (w : Int) * 60 - 10 < remaining ∧
           child.today.should_show_warning w = true))) ∧
       (∀ w ∈ (warningsLoop sw ws remaining child sent).2.2,
         (warningsLoop sw ws remaining child sent).2.1.today.should_show_warning w
           = false) ∧
       (sent.Nodup → (warningsLoop sw ws remaining child sent).2.2.Nodup)) := by
  intro ws
  induction ws with
  | nil =>
    intro child sent _ hsent
    refine ⟨rfl, ?_, ?_, ?_⟩
    · intro w
      simp only [warningsLoop, List.not_mem_nil, false_and, or_false]
    · intro w hw
      exact hsent w hw
    · intro h
      exact h
  | cons w0 rest ih =>
    intro child sent hpw hsent
    obtain ⟨hhead, htail⟩ := List.pairwise_cons.mp hpw
    by_cases hcond : remaining ≤ (w0 : Int) * 60 ∧ (w0 : Int) * 60 - 10 < remaining
    · by_cases hshow : child.today.should_show_warning w0 = true
      · -- fire and mark
        have heq : warningsLoop sw (w0 :: rest) remaining child sent =
            warningsLoop sw rest remaining
              { child with today := child.today.mark_warning_shown w0 }
              (sent ++ [w0]) := by
          simp only [warningsLoop, if_pos hcond, hshow, if_true, hsw child w0]
        have hsent2 : ∀ v ∈ sent ++ [w0],
            ({ child with today := child.today.mark_warning_shown w0 }
              : ChildState).today.should_show_warning v = false := by
          intro v hv
          rcases List.mem_append.mp hv with hv | hv
          · exact should_show_mark_false child.today w0 v (hsent v hv)
          · rw [List.mem_singleton.mp hv]
            exact should_show_mark_self child.today w0
        obtain ⟨hok, hmem, hmarked, hnd⟩ :=
          ih { child with today := child.today.mark_warning_shown w0 } (sent ++ [w0])
            htail hsent2
        rw [heq]
        refine ⟨hok, ?_, hmarked, ?_⟩
        · intro w
          rw [hmem w]
          constructor
          · rintro (hw | ⟨hwr, hc1, hc2, hs⟩)
            · rcases List.mem_append.mp hw with hw | hw
              · exact Or.inl hw
              · rw [List.mem_singleton.mp hw]
                exact Or.inr ⟨List.mem_cons_self w0 rest, hcond.1, hcond.2, hshow⟩
            · have hkey : toString w ++ "min" ≠ toString w0 ++ "min" :=
                fun h => hhead w hwr h.symm
              rw [should_show_mark_ne child.today w0 w hkey] at hs
              exact Or.inr ⟨List.mem_cons_of_mem w0 hwr, hc1, hc2, hs⟩
          · rintro (hw | ⟨hwm, hc1, hc2, hs⟩)
            · exact Or.inl (List.mem_append_left _ hw)
            · rcases List.mem_cons.mp hwm with rfl | hwr
              · exact Or.inl (List.mem_append_right _ (List.mem_singleton.mpr rfl))
              · have hkey : toString w ++ "min" ≠ toString w0 ++ "min" :=
                  fun h => hhead w hwr h.symm
                refine Or.inr ⟨hwr, hc1, hc2, ?_⟩
                rw [should_show_mark_ne child.today w0 w hkey]
                exact hs
        · intro hndsent
          apply hnd
          rw [List.nodup_append]
          refine ⟨hndsent, List.nodup_singleton w0, ?_⟩
          intro a ha ha2
          rw [List.mem_singleton.mp ha2] at ha
          rw [hsent w0 ha] at hshow
          exact Bool.false_ne_true hshow
      · -- window hit but already shown today: skip
        have hshow2 : child.today.should_show_warning w0 = false := by
          simpa using hshow
        have heq : warningsLoop sw (w0 :: rest) remaining child sent =
            warningsLoop sw rest remaining child sent := by
          simp only [warningsLoop, if_pos hcond, hshow2, Bool.false_eq_true, if_false]
        obtain ⟨hok, hmem, hmarked, hnd⟩ := ih child sent htail hsent
        rw [heq]
        refine ⟨hok, ?_, hmarked, hnd⟩
        intro w
        rw [hmem w]
        constructor
        · rintro (hw | ⟨hwr, hc1, hc2, hs⟩)
          · exact Or.inl hw
          · exact Or.inr ⟨List.mem_cons_of_mem w0 hwr, hc1, hc2, hs⟩
        · rintro (hw | ⟨hwm, hc1, hc2, hs⟩)
          · exact Or.inl hw
          · rcases List.mem_cons.mp hwm with rfl | hwr
            · rw [hshow2] at hs
              exact absurd hs (Bool.false_ne_true)
            · exact Or.inr ⟨hwr, hc1, hc2, hs⟩
    · -- outside the firing window: skip
      have heq : warningsLoop sw (w0 :: rest) remaining child sent =
          warningsLoop sw rest remaining child sent := by
        simp only [warningsLoop, if_neg hcond]
      obtain ⟨hok, hmem, hmarked, hnd⟩ := ih child sent htail hsent
      rw [heq]
      refine ⟨hok, ?_, hmarked, hnd⟩
      intro w
      rw [hmem w]
      constructor
      · rintro (hw | ⟨hwr, hc1, hc2, hs⟩)
        · exact Or.inl hw
        · exact Or.inr ⟨List.mem_cons_of_mem w0 hwr, hc1, hc2, hs⟩
      · rintro (hw | ⟨hwm, hc1, hc2, hs⟩)
        · exact Or.inl hw
        · rcases List.mem_cons.mp hwm with rfl | hwr
          · exact absurd ⟨hc1, hc2⟩ hcond
          · exact Or.inr ⟨hwr, hc1, hc2, hs⟩

/-- **C8.** On a tick (period T = 10 s) that accounts time for an active,
unlocked child — with warning notifications that succeed and configured
thresholds with pairwise-distinct warning keys, as config validation's
strictly-descending requirement guarantees — a warning for a configured
threshold `w` (minutes) is sent iff
`remaining_seconds ≤ w*60 < remaining_seconds + 10` and threshold `w` has
not already been shown today; every sent threshold is marked shown in the
resulting state, and no threshold is sent twice in the tick. -/
theorem c8_warning_sent_iff
    (config : TimeLimitsConfig) (dateOf : Nat → String) (now : Nat) (weekday : Weekday)
    (current_user : String)
    (sw sfw : ChildState → Nat → Except String Unit)
    (el : ChildState → Except String Unit)
    (st st1 : TimeLimitsState) (ses : ActiveSession) (child_config : ChildProfile)
    (child0 : ChildState)
    (hdate : st.state_date = dateOf now)
    (hses : st.active_session = some ses)
    (hpaused : ses.paused = false)
    (hcfg : config.children.find? (fun c => c.id == ses.child_id) = some child_config)
    (hpair : st.get_or_create_child (dateOf now) ses.child_id child_config.name
      = (st1, child0))
    (hnotlocked : child0.today.is_locked = false)
    (hsw : ∀ c w, sw c w = .ok ())
    (hkeys : child_config.warnings.Pairwise
      (fun a b => toString a ++ "min" ≠ toString b ++ "min")) :
    (∀ w : Nat,
      w ∈ (track_iteration config dateOf now weekday current_user sw sfw el
          st).output.warningsSent ↔
        (w ∈ child_config.warnings ∧
          calculate_remaining_time child_config weekday (child0.today.used_seconds + 10)
            (some (get_today_overrides dateOf (dateOf now) ses.child_id
              st.admin_overrides)) ≤ (w : Int) * 60 ∧
          (w : Int) * 60 <
            calculate_remaining_time child_config weekday
              (child0.today.used_seconds + 10)
              (some (get_today_overrides dateOf (dateOf now) ses.child_id
                st.admin_overrides)) + 10 ∧
          child0.today.should_show_warning w = true)) ∧
    (track_iteration config dateOf now weekday current_user sw sfw el
      st).output.warningsSent.Nodup ∧
    (∃ child1,
      (track_iteration config dateOf now weekday current_user sw sfw el
          st).state.get_child ses.child_id = some child1 ∧
      ∀ w ∈ (track_iteration config dateOf now weekday current_user sw sfw el
          st).output.warningsSent,
        child1.today.should_show_warning w = false) := by
  have key := track_iteration_accounting_eq config dateOf now weekday current_user sw sfw
    el st st1 ses child_config child0 hdate hses hpaused hcfg hpair hnotlocked
  have hspec := get_or_create_child_spec st (dateOf now) ses.child_id child_config.name
  rw [hpair] at hspec
  simp only at hspec
  obtain ⟨hid0, hget0⟩ := hspec
  have hpresent : (st1.get_child ses.child_id).isSome = true := by
    rw [hget0]; rfl
  rcases hloop : warningsLoop sw child_config.warnings
      (calculate_remaining_time child_config weekday (child0.today.used_seconds + 10)
        (some (get_today_overrides dateOf (dateOf now) ses.child_id st.admin_overrides)))
      { id := child0.id
        name := child0.name
        today :=
          { date := child0.today.date
            used_seconds := child0.today.used_seconds + 10
            remaining_seconds :=
              calculate_remaining_time child_config weekday
                (child0.today.used_seconds + 10)
                (some (get_today_overrides dateOf (dateOf now) ses.child_id
                  st.admin_overrides))
            sessions := child0.today.sessions
            warnings_shown := child0.today.warnings_shown
            locked_at := child0.today.locked_at } } []
    with ⟨res, child2, sent⟩
  have hpres := warningsLoop_preserves sw
    (calculate_remaining_time child_config weekday (child0.today.used_seconds + 10)
      (some (get_today_overrides dateOf (dateOf now) ses.child_id st.admin_overrides)))
    child_config.warnings
    { id := child0.id
      name := child0.name
      today :=
        { date := child0.today.date
          used_seconds := child0.today.used_seconds + 10
          remaining_seconds :=
            calculate_remaining_time child_config weekday
              (child0.today.used_seconds + 10)
              (some (get_today_overrides dateOf (dateOf now) ses.child_id
                st.admin_overrides))
          sessions := child0.today.sessions
          warnings_shown := child0.today.warnings_shown
          locked_at := child0.today.locked_at } } []
  rw [hloop] at hpres
  simp only at hpres
  have hid2 : child2.id = ses.child_id := by rw [hpres.1]; exact hid0
  have hloopspec := warningsLoop_spec sw hsw
    (calculate_remaining_time child_config weekday (child0.today.used_seconds + 10)
      (some (get_today_overrides dateOf (dateOf now) ses.child_id st.admin_overrides)))
    child_config.warnings
    { id := child0.id
      name := child0.name
      today :=
        { date := child0.today.date
          used_seconds := child0.today.used_seconds + 10
          remaining_seconds :=
            calculate_remaining_time child_config weekday
              (child0.today.used_seconds + 10)
              (some (get_today_overrides dateOf (dateOf now) ses.child_id
                st.admin_overrides))
          sessions := child0.today.sessions
          warnings_shown := child0.today.warnings_shown
          locked_at := child0.today.locked_at } } []
    hkeys (by intro v hv; cases hv)
  rw [hloop] at hloopspec
  simp only at hloopspec
  obtain ⟨hok, hmem, hmarked, hnd⟩ := hloopspec
  subst hok
  simp only [List.not_mem_nil, false_or] at hmem
  have hbranch :
      (track_iteration config dateOf now weekday current_user sw sfw el
        st).output.warningsSent = sent ∧
      ∃ child1,
        (track_iteration config dateOf now weekday current_user sw sfw el
          st).state.get_child ses.child_id = some child1 ∧
        (∀ w, child1.today.should_show_warning w
          = child2.today.should_show_warning w) := by
    rw [key, hloop]
    dsimp only
    by_cases hRz : calculate_remaining_time child_config weekday
        (child0.today.used_seconds + 10)
        (some (get_today_overrides dateOf (dateOf now) ses.child_id
          st.admin_overrides)) ≤ 0
    · rw [if_pos hRz]
      rcases hsfw : sfw child2 child_config.grace_period with e | u2
      · exact ⟨rfl, child2, get_child_set_child st1 ses.child_id child2 hid2 hpresent,
          fun w => rfl⟩
      · rcases hel :
            el ⟨child2.id, child2.name, child2.today.lock now⟩
          with e | u3
        · refine ⟨rfl, ⟨child2.id, child2.name, child2.today.lock now⟩,
            get_child_set_child st1 ses.child_id _ hid2 hpresent, fun w => ?_⟩
          show (child2.today.lock now).should_show_warning w = _
          unfold DayUsage.should_show_warning
          rw [(lock_fields child2.today now).2.2.2.2]
        · refine ⟨rfl, ⟨child2.id, child2.name, child2.today.lock now⟩,
            get_child_set_child st1 ses.child_id _ hid2 hpresent, fun w => ?_⟩
          show (child2.today.lock now).should_show_warning w = _
          unfold DayUsage.should_show_warning
          rw [(lock_fields child2.today now).2.2.2.2]
    · rw [if_neg hRz]
      exact ⟨rfl, child2, get_child_set_child st1 ses.child_id child2 hid2 hpresent,
        fun w => rfl⟩
  obtain ⟨houtsent, child1, hg, hss⟩ := hbranch
  refine ⟨?_, ?_, child1, hg, ?_⟩
  · intro w
    rw [houtsent, hmem w]
    constructor
    · rintro ⟨hwm, hc1, hc2, hs⟩
      exact ⟨hwm, hc1, by omega, hs⟩
    · rintro ⟨hwm, hc1, hc2, hs⟩
      exact ⟨hwm, hc1, by omega, hs⟩
  · rw [houtsent]
    exact hnd List.nodup_nil
  · intro w hw
    rw [houtsent] at hw
    rw [hss w]
    exact hmarked w hw

/-- Child state fixture close to the 15-minute warning threshold. -/
def warnChild : ChildState :=
  { id := "kid1"
    name := "Alice"
    today :=
      { date := "2025-01-02"
        used_seconds := 6290
        remaining_seconds := 0
        sessions := []
        warnings_shown := []
        locked_at := none } }

/-- Tracker state fixture for the C8 witness. -/
def warnTrackerState : TimeLimitsState :=
  { version := "1.0"
    state_date := "2025-01-02"
    children := [warnChild]
    active_session := some ⟨"kid1", 50, 50, false⟩
    admin_overrides := [] }

/-- Witness for C8: with `remaining = 7200 - 6300 = 900` the 15-minute
warning (window `900 ≤ 900 < 910`) fires while the 5-minute one does
not. -/
theorem c8_warning_sent_iff_witness :
    (15 : Nat) ∈ (track_iteration tlConfigA (fun _ => "2025-01-02") 100 .wed "alice"
      (fun _ _ => .ok ()) (fun _ _ => .ok ()) (fun _ => .ok ())
      warnTrackerState).output.warningsSent ∧
    (5 : Nat) ∉ (track_iteration tlConfigA (fun _ => "2025-01-02") 100 .wed "alice"
      (fun _ _ => .ok ()) (fun _ _ => .ok ()) (fun _ => .ok ())
      warnTrackerState).output.warningsSent := by
  have h := c8_warning_sent_iff tlConfigA (fun _ => "2025-01-02") 100 .wed "alice"
    (fun _ _ => .ok ()) (fun _ _ => .ok ()) (fun _ => .ok ())
    warnTrackerState warnTrackerState ⟨"kid1", 50, 50, false⟩ kidProfileA warnChild
    rfl rfl rfl rfl rfl rfl (fun _ _ => rfl) (by decide)
  constructor
  · exact (h.1 15).mpr ⟨by decide, by decide, by decide, by decide⟩
  · intro hmem
    have h2 := (h.1 5).mp hmem
    have h3 := h2.2.1
    revert h3
    decide

end FamilyPolicy
